import Mathlib

/-!
Verification development for the Anchor-Based Semantic Scoring Engine of the
ssr-replication repository.

The repository's core numeric code (embedding-service similarity scorer,
scale-anchor resolver, and the cross-validation calibration scripts) is
shallowly embedded here over `ℝ` (JavaScript IEEE doubles are modelled as real
numbers; where the float/real distinction matters it is noted on the relevant
definition), `ℤ`/`ℕ` for integer quantities, `ℚ` for the exactly-dyadic PRNG
arithmetic, and `List` for JavaScript arrays.
-/

namespace SSR

/-! ### Similarity scorer (embedding-service, `cosineSimilarity` …
`distributionToRating`) -/

/-- The three normalization modes of `normalizeSimilarities`
(`"none" | "minmax" | "zscore"`). -/
inductive SimilarityNormalization
  | none
  | minmax
  | zscore
  deriving DecidableEq, Repr

/-- Model of `Math.max(...l)` for the nonempty lists it is applied to.
(JavaScript returns `-Infinity` on an empty spread; the scorer only ever uses
the value when the list is nonempty, so the `[]` case here is an arbitrary
placeholder.) -/
def listMax : List ℝ → ℝ
  | [] => 0
  | x :: xs => xs.foldl max x

/-- Model of `Math.min(...l)` for nonempty lists, as `listMax`. -/
def listMin : List ℝ → ℝ
  | [] => 0
  | x :: xs => xs.foldl min x

/-- `cosineSimilarity(a, b)`: the loop runs over the indices of `a`, so `dot`
and `normB` only read the first `a.length` entries of `b`.  This embedding is
exact whenever `a.length ≤ b.length`; if `a` were longer, JavaScript would read
`undefined` and produce `NaN`, which has no real-number counterpart. -/
noncomputable def cosineSimilarity (a b : List ℝ) : ℝ :=
  let dot := (List.zipWith (· * ·) a b).sum
  let normA := (a.map (fun x => x * x)).sum
  let normB := ((b.take a.length).map (fun x => x * x)).sum
  let denom := Real.sqrt normA * Real.sqrt normB
  if denom = 0 then 0 else dot / denom

/-- `computeSimilarities(responseVec, anchorVecs)`. -/
noncomputable def computeSimilarities (responseVec : List ℝ)
    (anchorVecs : List (List ℝ)) : List ℝ :=
  anchorVecs.map (fun anchor => cosineSimilarity responseVec anchor)

/-- `normalizeSimilarities(similarities, method)`.  JavaScript `reduce` sums
are modelled with `List.sum` (real addition is associative, so the fold order
is immaterial in the real model). -/
noncomputable def normalizeSimilarities (similarities : List ℝ)
    (method : SimilarityNormalization) : List ℝ :=
  if method = SimilarityNormalization.none ∨ similarities.length ≤ 1 then
    similarities
  else
    match method with
    | .none => similarities
    | .minmax =>
        let mn := listMin similarities
        let mx := listMax similarities
        let range := mx - mn
        if range = 0 then
          similarities.map (fun _ => 1 / (similarities.length : ℝ))
        else
          similarities.map (fun s => (s - mn) / range)
    | .zscore =>
        let mean := similarities.sum / (similarities.length : ℝ)
        let variance :=
          (similarities.map (fun s => (s - mean) ^ 2)).sum /
            (similarities.length : ℝ)
        let std := Real.sqrt variance
        if std = 0 then
          similarities.map (fun _ => 1 / (similarities.length : ℝ))
        else
          similarities.map (fun s => (s - mean) / std)

/-- `similaritiesToDistribution(similarities, temperature, normalization)`:
normalize, divide by the temperature, subtract the maximum for numerical
stability, exponentiate, and normalize to sum to 1. -/
noncomputable def similaritiesToDistribution (similarities : List ℝ)
    (temperature : ℝ) (normalization : SimilarityNormalization) : List ℝ :=
  let normalized := normalizeSimilarities similarities normalization
  let scaled := normalized.map (fun s => s / temperature)
  let maxVal := listMax scaled
  let exps := scaled.map (fun s => Real.exp (s - maxVal))
  let sumExps := exps.sum
  exps.map (fun e => e / sumExps)

/-- `distributionToRating(distribution, scaleMin)`: the rounded expected value
`Math.round(Σ distribution[i] * (scaleMin + i))`.  `Math.round` rounds half
toward `+∞`, exactly Mathlib's `round` (`⌊x + 1/2⌋`). -/
noncomputable def distributionToRating (distribution : List ℝ)
    (scaleMin : ℤ) : ℤ :=
  round ((distribution.enum.map
    (fun p => p.2 * ((scaleMin : ℝ) + (p.1 : ℝ)))).sum)

/-- The clamp applied by every caller of `distributionToRating`
(`mapResponseToScale` and the calibration scripts):
`Math.min(Math.max(rating, scaleMin), scaleMax)`. -/
noncomputable def clampedRating (distribution : List ℝ)
    (scaleMin scaleMax : ℤ) : ℤ :=
  min (max (distributionToRating distribution scaleMin) scaleMin) scaleMax

/-- The entropy-based confidence computed inline by the experiment scripts:
`entropy = -dist.reduce((h, p) => p > 0 ? h + p * Math.log2(p) : h, 0)`,
`maxEntropy = Math.log2(dist.length)`,
`confidence = maxEntropy > 0 ? Math.round((1 - entropy/maxEntropy)*100)/100 : 0`. -/
noncomputable def confidenceOf (dist : List ℝ) : ℝ :=
  let entropy :=
    -(dist.foldl (fun h p => if 0 < p then h + p * Real.logb 2 p else h) 0)
  let maxEntropy := Real.logb 2 (dist.length : ℝ)
  if 0 < maxEntropy then (round ((1 - entropy / maxEntropy) * 100) : ℝ) / 100
  else 0

/-! ### Basic structure lemmas for the scorer -/

theorem normalizeSimilarities_length (s : List ℝ)
    (m : SimilarityNormalization) :
    (normalizeSimilarities s m).length = s.length := by
  unfold normalizeSimilarities
  split
  · rfl
  · cases m <;> simp only [] <;> try rfl
    · split <;> simp
    · split <;> simp

theorem similaritiesToDistribution_length (s : List ℝ) (t : ℝ)
    (m : SimilarityNormalization) :
    (similaritiesToDistribution s t m).length = s.length := by
  unfold similaritiesToDistribution
  simp [normalizeSimilarities_length]

theorem getD_map_lt {α β : Type} (l : List α) (f : α → β) :
    ∀ (i : ℕ), i < l.length → ∀ (d : α) (e : β),
      (l.map f).getD i e = f (l.getD i d) := by
  induction l with
  | nil => intro i h; simp at h
  | cons x xs ih =>
      intro i h d e
      cases i with
      | zero => rfl
      | succ j =>
          simp only [List.map_cons, List.getD_cons_succ]
          exact ih j (by simpa using h) d e

theorem sum_map_eq_range (l : List ℝ) (f : ℝ → ℝ) :
    (l.map f).sum = ∑ j ∈ Finset.range l.length, f (l.getD j 0) := by
  induction l with
  | nil => simp
  | cons x xs ih =>
      simp only [List.map_cons, List.sum_cons, List.length_cons]
      rw [Finset.sum_range_succ']
      simp only [List.getD_cons_succ, List.getD_cons_zero]
      rw [← ih]
      ring

/-- The softmax entry formula: after cancelling the numerical-stability shift,
entry `i` of the distribution is the reciprocal of
`Σⱼ exp((vⱼ − vᵢ)/t)` over the normalized similarities `v`. -/
theorem dist_getD_eq_inv_sum (s : List ℝ) (t : ℝ)
    (m : SimilarityNormalization) (i : ℕ) (hi : i < s.length) :
    (similaritiesToDistribution s t m).getD i 0 =
      (∑ j ∈ Finset.range s.length,
        Real.exp (((normalizeSimilarities s m).getD j 0 -
          (normalizeSimilarities s m).getD i 0) / t))⁻¹ := by
  have hv : (normalizeSimilarities s m).length = s.length :=
    normalizeSimilarities_length s m
  set v := normalizeSimilarities s m with hvdef
  unfold similaritiesToDistribution
  rw [← hvdef]
  set B := listMax (v.map (fun s => s / t)) with hB
  have hexps : (v.map (fun s => s / t)).map (fun s => Real.exp (s - B)) =
      v.map (fun x => Real.exp (x / t - B)) := by
    rw [List.map_map]; rfl
  simp only [hexps]
  have hiv : i < v.length := by rw [hv]; exact hi
  have hget : ((v.map (fun x => Real.exp (x / t - B))).map
      (fun e => e / (v.map (fun x => Real.exp (x / t - B))).sum)).getD i 0 =
      Real.exp (v.getD i 0 / t - B) /
        (v.map (fun x => Real.exp (x / t - B))).sum := by
    rw [getD_map_lt (d := 0) _ _ i (by simpa using hiv),
        getD_map_lt (d := 0) _ _ i (by simpa using hiv)]
  rw [hget]
  have hsum : (v.map (fun x => Real.exp (x / t - B))).sum =
      Real.exp (v.getD i 0 / t - B) *
        ∑ j ∈ Finset.range s.length,
          Real.exp ((v.getD j 0 - v.getD i 0) / t) := by
    rw [sum_map_eq_range, ← hv, Finset.mul_sum]
    refine Finset.sum_congr rfl (fun j hj => ?_)
    rw [← Real.exp_add]
    congr 1
    rw [sub_div]
    ring
  rw [hsum, div_mul_eq_div_div, div_self (Real.exp_ne_zero _), one_div]

/-- Every entry of `similaritiesToDistribution` is a quotient of a positive
exponential by the (positive, for a nonempty input) sum of exponentials. -/
theorem sum_exps_pos (s : List ℝ) (t : ℝ) (m : SimilarityNormalization)
    (hne : s ≠ []) :
    0 < (((normalizeSimilarities s m).map (fun x => x / t)).map
      (fun x => Real.exp (x - listMax ((normalizeSimilarities s m).map
        (fun x => x / t))))).sum := by
  apply List.sum_pos
  · intro a ha
    simp only [List.mem_map] at ha
    obtain ⟨x, -, rfl⟩ := ha
    exact Real.exp_pos _
  · simp only [ne_eq, List.map_eq_nil_iff]
    intro h
    exact hne (by simpa [normalizeSimilarities_length, List.length_eq_zero]
      using congrArg List.length h)

theorem sum_map_div (l : List ℝ) (c : ℝ) :
    (l.map (fun e => e / c)).sum = l.sum / c := by
  induction l with
  | nil => simp
  | cons x xs ih => simp [ih, add_div]

/-- Weighted sums over `List.enumFrom` agree with index-based `Finset` sums. -/
theorem enumFrom_weighted_sum (c : ℝ) :
    ∀ (l : List ℝ) (k : ℕ),
      ((l.enumFrom k).map (fun p => p.2 * (c + (p.1 : ℝ)))).sum =
        ∑ i ∈ Finset.range l.length, l.getD i 0 * (c + ((k : ℝ) + (i : ℝ))) := by
  intro l
  induction l with
  | nil => intro k; simp
  | cons x xs ih =>
      intro k
      simp only [List.enumFrom_cons, List.map_cons, List.sum_cons,
        List.length_cons]
      rw [Finset.sum_range_succ', ih (k + 1)]
      simp only [List.getD_cons_succ, List.getD_cons_zero]
      push_cast
      have hcg : ∀ i ∈ Finset.range xs.length,
          xs.getD i 0 * (c + (((k : ℝ) + 1) + (i : ℝ))) =
            xs.getD i 0 * (c + ((k : ℝ) + ((i : ℝ) + 1))) := by
        intro i _
        ring
      rw [Finset.sum_congr rfl hcg]
      ring

/-! ### Claim theorems for the scorer -/

/-- C2: for every nonempty similarity vector and positive temperature, under
every normalization mode, the distribution has the input's length, all entries
are nonnegative, and the entries sum to 1 within 1e-6 (in the real model the
sum is exactly 1; the hypothesis `0 < t` mirrors the claim's precondition). -/
theorem c2_distribution_wellformed (s : List ℝ) (t : ℝ)
    (m : SimilarityNormalization) (hne : s ≠ []) (_ht : 0 < t) :
    (similaritiesToDistribution s t m).length = s.length ∧
    (∀ x ∈ similaritiesToDistribution s t m, 0 ≤ x) ∧
    |(similaritiesToDistribution s t m).sum - 1| ≤ 1 / 1000000 := by
  have hS := sum_exps_pos s t m hne
  refine ⟨similaritiesToDistribution_length s t m, ?_, ?_⟩
  · intro x hx
    unfold similaritiesToDistribution at hx
    simp only [List.mem_map] at hx
    obtain ⟨e, ⟨y, -, rfl⟩, rfl⟩ := hx
    positivity
  · unfold similaritiesToDistribution
    rw [sum_map_div, div_self (ne_of_gt hS)]
    simp

/-- C2 witness at `s = [1/2]`, `t = 1`, minmax mode. -/
theorem c2_witness :
    (([(1 : ℝ)/2] : List ℝ) ≠ [] ∧ (0 : ℝ) < 1) ∧
    ((similaritiesToDistribution [(1 : ℝ)/2] 1 .minmax).length =
        ([(1 : ℝ)/2] : List ℝ).length ∧
      (∀ x ∈ similaritiesToDistribution [(1 : ℝ)/2] 1 .minmax, 0 ≤ x) ∧
      |(similaritiesToDistribution [(1 : ℝ)/2] 1 .minmax).sum - 1| ≤
        1 / 1000000) :=
  ⟨⟨by simp, by norm_num⟩,
    c2_distribution_wellformed [(1 : ℝ)/2] 1 .minmax (by simp) (by norm_num)⟩

/-- C1 (amended): the scorer defines no error path at all.  For every response
vector, anchor list, temperature and normalization mode — including dimension
mismatches and the empty anchor list — the pipeline returns a distribution
with exactly one entry per anchor instead of failing. -/
theorem c1_amended_total_no_error (responseVec : List ℝ)
    (anchorVecs : List (List ℝ)) (t : ℝ) (m : SimilarityNormalization) :
    (similaritiesToDistribution (computeSimilarities responseVec anchorVecs)
      t m).length = anchorVecs.length := by
  rw [similaritiesToDistribution_length]
  unfold computeSimilarities
  simp

/-- C1 counterexample: a dimension-mismatched call (response of dimension 1
against anchors of dimension 2) and an empty-anchor call both return results
(`[1/2, 1/2]` and `[]` respectively) — neither fails with `InvalidInput`,
because no such error path exists in the scorer. -/
theorem c1_counterexample :
    similaritiesToDistribution
        (computeSimilarities [(1 : ℝ)] [[1, 1], [1, 1]]) 1 .minmax =
      [1/2, 1/2] ∧
    similaritiesToDistribution (computeSimilarities [(1 : ℝ)] []) 1 .minmax
      = [] := by
  constructor
  · have hcos : cosineSimilarity [(1 : ℝ)] [1, 1] = 1 := by
      unfold cosineSimilarity
      norm_num [Real.sqrt_one]
    have hmap : computeSimilarities [(1 : ℝ)] [[1, 1], [1, 1]] = [1, 1] := by
      unfold computeSimilarities
      simp [hcos]
    have hnorm : normalizeSimilarities [(1 : ℝ), 1] .minmax = [1/2, 1/2] := by
      unfold normalizeSimilarities listMin listMax
      rw [if_neg (by simp)]
      norm_num
    rw [hmap]
    unfold similaritiesToDistribution
    rw [hnorm]
    norm_num [listMax, Real.exp_zero]
  · rfl

/-- C4: the point rating is the rounded expected value of the distribution
(`round (Σ distribution[i] * (min + i))`, not the argmax), and the clamped
rating handed back to the caller always lies in `[min, max]`. -/
theorem c4_rating_expected_value_clamped (dist : List ℝ) (mn mx : ℤ)
    (_hnn : ∀ x ∈ dist, 0 ≤ x) (_hsum : dist.sum = 1)
    (_hlen : dist.length = (mx - mn + 1).toNat) (hmn : mn ≤ mx) :
    distributionToRating dist mn =
      round (∑ i ∈ Finset.range dist.length,
        dist.getD i 0 * ((mn : ℝ) + (i : ℝ))) ∧
    mn ≤ clampedRating dist mn mx ∧ clampedRating dist mn mx ≤ mx := by
  refine ⟨?_, ?_, ?_⟩
  · unfold distributionToRating
    rw [List.enum, enumFrom_weighted_sum]
    norm_num
  · unfold clampedRating
    exact le_min (le_max_right _ _) hmn
  · unfold clampedRating
    exact min_le_right _ _

/-- C4 witness at the distribution `[1/2, 1/2, 0]` on a 1–3 scale. -/
theorem c4_witness :
    ((∀ x ∈ ([(1 : ℝ)/2, 1/2, 0] : List ℝ), 0 ≤ x) ∧
      ([(1 : ℝ)/2, 1/2, 0] : List ℝ).sum = 1 ∧
      ([(1 : ℝ)/2, 1/2, 0] : List ℝ).length = ((3 : ℤ) - 1 + 1).toNat ∧
      (1 : ℤ) ≤ 3) ∧
    (distributionToRating [(1 : ℝ)/2, 1/2, 0] 1 =
      round (∑ i ∈ Finset.range ([(1 : ℝ)/2, 1/2, 0] : List ℝ).length,
        ([(1 : ℝ)/2, 1/2, 0] : List ℝ).getD i 0 * (((1 : ℤ) : ℝ) + (i : ℝ))) ∧
    (1 : ℤ) ≤ clampedRating [(1 : ℝ)/2, 1/2, 0] 1 3 ∧
      clampedRating [(1 : ℝ)/2, 1/2, 0] 1 3 ≤ 3) := by
  have hnn : ∀ x ∈ ([(1 : ℝ)/2, 1/2, 0] : List ℝ), 0 ≤ x := by
    intro x hx
    simp only [List.mem_cons, List.not_mem_nil, or_false] at hx
    rcases hx with h | h | h <;> rw [h] <;> norm_num
  exact ⟨⟨hnn, by norm_num, by decide, by norm_num⟩,
    c4_rating_expected_value_clamped [(1 : ℝ)/2, 1/2, 0] 1 3 hnn
      (by norm_num) (by decide) (by norm_num)⟩

/-! ### C9: five equal similarities -/

theorem dist_of_norm_const (s : List ℝ) (t c : ℝ)
    (m : SimilarityNormalization)
    (h : normalizeSimilarities s m = [c, c, c, c, c]) :
    similaritiesToDistribution s t m = [1/5, 1/5, 1/5, 1/5, 1/5] := by
  unfold similaritiesToDistribution
  rw [h]
  simp only [List.map_cons, List.map_nil, listMax, List.foldl_cons,
    List.foldl_nil, max_self, sub_self, Real.exp_zero, List.sum_cons,
    List.sum_nil]
  norm_num

theorem norm_const_none :
    normalizeSimilarities [(0.7 : ℝ), 0.7, 0.7, 0.7, 0.7] .none =
      [(0.7 : ℝ), 0.7, 0.7, 0.7, 0.7] := by
  unfold normalizeSimilarities
  rw [if_pos (Or.inl rfl)]

theorem norm_const_minmax :
    normalizeSimilarities [(0.7 : ℝ), 0.7, 0.7, 0.7, 0.7] .minmax =
      [1/5, 1/5, 1/5, 1/5, 1/5] := by
  unfold normalizeSimilarities listMin listMax
  rw [if_neg (by simp)]
  norm_num

theorem norm_const_zscore :
    normalizeSimilarities [(0.7 : ℝ), 0.7, 0.7, 0.7, 0.7] .zscore =
      [1/5, 1/5, 1/5, 1/5, 1/5] := by
  unfold normalizeSimilarities
  rw [if_neg (by simp)]
  norm_num [Real.sqrt_eq_zero]

theorem dist_equal_sims (t : ℝ) (m : SimilarityNormalization) :
    similaritiesToDistribution [(0.7 : ℝ), 0.7, 0.7, 0.7, 0.7] t m =
      [1/5, 1/5, 1/5, 1/5, 1/5] := by
  cases m with
  | none => exact dist_of_norm_const _ t 0.7 _ norm_const_none
  | minmax => exact dist_of_norm_const _ t (1/5) _ norm_const_minmax
  | zscore => exact dist_of_norm_const _ t (1/5) _ norm_const_zscore

theorem rating_uniform5 :
    distributionToRating [(1 : ℝ)/5, 1/5, 1/5, 1/5, 1/5] 1 = 3 := by
  unfold distributionToRating
  have h : (([(1 : ℝ)/5, 1/5, 1/5, 1/5, 1/5].enum).map
      (fun p => p.2 * (((1 : ℤ) : ℝ) + (p.1 : ℝ)))).sum = 3 := by
    simp [List.enum, List.enumFrom]
    norm_num
  rw [h]
  have : ((3 : ℤ) : ℝ) = (3 : ℝ) := by norm_num
  rw [← this, round_intCast]

theorem confidence_uniform5 :
    confidenceOf [(1 : ℝ)/5, 1/5, 1/5, 1/5, 1/5] = 0 := by
  unfold confidenceOf
  have hL : Real.logb 2 ((1 : ℝ)/5) = -Real.logb 2 5 := by
    rw [one_div, Real.logb_inv]
  have hpos : (0 : ℝ) < Real.logb 2 5 :=
    Real.logb_pos one_lt_two (by norm_num)
  have hfold : ([(1 : ℝ)/5, 1/5, 1/5, 1/5, 1/5].foldl
      (fun h p => if 0 < p then h + p * Real.logb 2 p else h) 0) =
      -Real.logb 2 5 := by
    simp only [List.foldl_cons, List.foldl_nil]
    rw [if_pos (by norm_num), if_pos (by norm_num), if_pos (by norm_num),
      if_pos (by norm_num), if_pos (by norm_num), hL]
    ring
  rw [hfold]
  simp only [List.length_cons, List.length_nil]
  rw [if_pos (by norm_num [hpos])]
  have h5 : ((0 + 1 + 1 + 1 + 1 + 1 : ℕ) : ℝ) = 5 := by norm_num
  rw [neg_neg]
  have hdiv : Real.logb 2 ((5 : ℕ) : ℝ) = Real.logb 2 5 := by norm_num
  rw [hdiv, div_self (ne_of_gt hpos)]
  norm_num

/-- C9: five equal similarities `[0.7, 0.7, 0.7, 0.7, 0.7]` on a 1–5 scale,
under every normalization mode and temperature, give the uniform distribution
`[0.2] * 5`, a rating of 3 (clamped rating 3 as well), and confidence 0. -/
theorem c9_equal_similarities_uniform (t : ℝ) (m : SimilarityNormalization)
    (_ht : 0 < t) :
    similaritiesToDistribution [(0.7 : ℝ), 0.7, 0.7, 0.7, 0.7] t m =
      [(0.2 : ℝ), 0.2, 0.2, 0.2, 0.2] ∧
    distributionToRating
      (similaritiesToDistribution [(0.7 : ℝ), 0.7, 0.7, 0.7, 0.7] t m) 1 = 3 ∧
    clampedRating
      (similaritiesToDistribution [(0.7 : ℝ), 0.7, 0.7, 0.7, 0.7] t m) 1 5
      = 3 ∧
    confidenceOf
      (similaritiesToDistribution [(0.7 : ℝ), 0.7, 0.7, 0.7, 0.7] t m) = 0 := by
  have hd := dist_equal_sims t m
  have h02 : ([(1 : ℝ)/5, 1/5, 1/5, 1/5, 1/5] : List ℝ) =
      [(0.2 : ℝ), 0.2, 0.2, 0.2, 0.2] := by norm_num
  refine ⟨by rw [hd, h02], ?_, ?_, ?_⟩
  · rw [hd]
    exact rating_uniform5
  · unfold clampedRating
    rw [hd, rating_uniform5]
    decide
  · rw [hd]
    exact confidence_uniform5

/-- C9 witness at `t = 1`, minmax normalization. -/
theorem c9_witness :
    ((0 : ℝ) < 1) ∧
    (similaritiesToDistribution [(0.7 : ℝ), 0.7, 0.7, 0.7, 0.7] 1 .minmax =
      [(0.2 : ℝ), 0.2, 0.2, 0.2, 0.2] ∧
    distributionToRating
      (similaritiesToDistribution [(0.7 : ℝ), 0.7, 0.7, 0.7, 0.7] 1 .minmax)
      1 = 3 ∧
    clampedRating
      (similaritiesToDistribution [(0.7 : ℝ), 0.7, 0.7, 0.7, 0.7] 1 .minmax)
      1 5 = 3 ∧
    confidenceOf
      (similaritiesToDistribution [(0.7 : ℝ), 0.7, 0.7, 0.7, 0.7] 1 .minmax)
      = 0) :=
  ⟨by norm_num, c9_equal_similarities_uniform 1 .minmax (by norm_num)⟩

/-! ### C7: monotonicity in a single similarity -/

/-- Evaluation of the z-score branch of `normalizeSimilarities` when the
population standard deviation is positive. -/
theorem normalize_zscore_eq (s : List ℝ) (h2 : 2 ≤ s.length) (μ v : ℝ)
    (hμ : s.sum / (s.length : ℝ) = μ)
    (hvar : (s.map (fun x => (x - μ) ^ 2)).sum / (s.length : ℝ) = v)
    (hv : 0 < v) :
    normalizeSimilarities s .zscore =
      s.map (fun x => (x - μ) / Real.sqrt v) := by
  unfold normalizeSimilarities
  rw [if_neg (by simp; omega)]
  dsimp only
  rw [hμ, hvar]
  rw [if_neg (by positivity)]

theorem sum_range_four (f : ℕ → ℝ) :
    ∑ j ∈ Finset.range 4, f j = f 0 + f 1 + f 2 + f 3 := by
  rw [Finset.sum_range_succ, Finset.sum_range_succ, Finset.sum_range_succ,
    Finset.sum_range_succ, Finset.sum_range_zero]
  ring

/-- C7 counterexample: under z-score normalization, strictly increasing the
second similarity of `[3, -2, 5/2, 5/2]` by `7/2` (to `[3, 3/2, 5/2, 5/2]`)
strictly DEcreases that anchor's probability mass at temperature `1/40`,
refuting the monotonicity claim for the z-score mode. -/
theorem c7_counterexample :
    ([(3 : ℝ), 3/2, 5/2, 5/2] =
      List.set [(3 : ℝ), -2, 5/2, 5/2] 1 (-2 + 7/2)) ∧
    (0 : ℝ) < 7/2 ∧
    (similaritiesToDistribution [(3 : ℝ), 3/2, 5/2, 5/2] (1/40)
        .zscore).getD 1 0 <
      (similaritiesToDistribution [(3 : ℝ), -2, 5/2, 5/2] (1/40)
        .zscore).getD 1 0 := by
  refine ⟨by norm_num, by norm_num, ?_⟩
  set σ : ℝ := Real.sqrt (33/8) with hσdef
  set σ2 : ℝ := Real.sqrt (19/64) with hσ2def
  have hσpos : (0 : ℝ) < σ := Real.sqrt_pos.mpr (by norm_num)
  have hσ2pos : (0 : ℝ) < σ2 := Real.sqrt_pos.mpr (by norm_num)
  -- rational bounds on the two standard deviations
  have hσlb : (200/99 : ℝ) ≤ σ := by
    rw [hσdef, Real.le_sqrt' (by norm_num)]
    norm_num
  have hσ2ub : σ2 ≤ (60/109 : ℝ) := by
    rw [hσ2def, Real.sqrt_le_left (by norm_num)]
    norm_num
  -- the normalized vectors
  have hv : normalizeSimilarities [(3 : ℝ), -2, 5/2, 5/2] .zscore =
      [(3 - 3/2) / σ, (-2 - 3/2) / σ, (5/2 - 3/2) / σ, (5/2 - 3/2) / σ] := by
    rw [normalize_zscore_eq _ (by norm_num) (3/2) (33/8)
      (by norm_num) (by norm_num) (by norm_num)]
    simp only [List.map_cons, List.map_nil, hσdef]
  have hv2 : normalizeSimilarities [(3 : ℝ), 3/2, 5/2, 5/2] .zscore =
      [(3 - 19/8) / σ2, (3/2 - 19/8) / σ2, (5/2 - 19/8) / σ2,
        (5/2 - 19/8) / σ2] := by
    rw [normalize_zscore_eq _ (by norm_num) (19/8) (19/64)
      (by norm_num) (by norm_num) (by norm_num)]
    simp only [List.map_cons, List.map_nil, hσ2def]
  -- entry formulas
  have he := dist_getD_eq_inv_sum [(3 : ℝ), -2, 5/2, 5/2] (1/40) .zscore 1
    (by norm_num)
  have he2 := dist_getD_eq_inv_sum [(3 : ℝ), 3/2, 5/2, 5/2] (1/40) .zscore 1
    (by norm_num)
  rw [hv] at he
  rw [hv2] at he2
  simp only [List.length_cons, List.length_nil, List.getD_cons_zero,
    List.getD_cons_succ] at he he2
  have hexpand : ∀ (A B C D c t : ℝ),
      (∑ j ∈ Finset.range (0 + 1 + 1 + 1 + 1),
        Real.exp (([A, B, C, D].getD j 0 - c) / t)) =
      Real.exp ((A - c) / t) + Real.exp ((B - c) / t) +
        Real.exp ((C - c) / t) + Real.exp ((D - c) / t) := by
    intro A B C D c t
    show (∑ j ∈ Finset.range 4, Real.exp (([A, B, C, D].getD j 0 - c) / t))
      = _
    rw [sum_range_four]
    rfl
  rw [hexpand] at he he2
  rw [he, he2]
  -- name the four exponents of each sum
  have hdiv : ∀ x : ℝ, x / ((1 : ℝ)/40) = 40 * x := by
    intro x
    field_simp
    ring
  -- old-vector exponents: 200/σ, 0, 180/σ, 180/σ (after temperature scaling)
  have e0 : (((3 : ℝ) - 3/2) / σ - (-2 - 3/2) / σ) / (1/40) =
      40 * (5 / σ) := by
    rw [div_sub_div_same]
    rw [show ((3 : ℝ) - 3/2) - (-2 - 3/2) = 5 by norm_num, hdiv]
  have e1 : (((-2 : ℝ) - 3/2) / σ - (-2 - 3/2) / σ) / (1/40) = 0 := by
    rw [sub_self, zero_div]
  have e2 : (((5 : ℝ)/2 - 3/2) / σ - (-2 - 3/2) / σ) / (1/40) =
      40 * ((9 : ℝ)/2 / σ) := by
    rw [div_sub_div_same]
    rw [show ((5 : ℝ)/2 - 3/2) - (-2 - 3/2) = 9/2 by norm_num, hdiv]
  have f0 : (((3 : ℝ) - 19/8) / σ2 - (3/2 - 19/8) / σ2) / (1/40) =
      40 * ((3 : ℝ)/2 / σ2) := by
    rw [div_sub_div_same]
    rw [show ((3 : ℝ) - 19/8) - (3/2 - 19/8) = 3/2 by norm_num, hdiv]
  have f1 : (((3 : ℝ)/2 - 19/8) / σ2 - (3/2 - 19/8) / σ2) / (1/40) = 0 := by
    rw [sub_self, zero_div]
  have f2 : (((5 : ℝ)/2 - 19/8) / σ2 - (3/2 - 19/8) / σ2) / (1/40) =
      40 * ((1 : ℝ) / σ2) := by
    rw [div_sub_div_same]
    rw [show ((5 : ℝ)/2 - 19/8) - (3/2 - 19/8) = 1 by norm_num, hdiv]
  rw [e0, e1, e2, f0, f1, f2, Real.exp_zero]
  clear_value σ σ2
  clear he he2 hv hv2 hexpand hdiv e0 e1 e2 f0 f1 f2 hσdef hσ2def
  -- exponent bounds
  have hb0 : 40 * ((5 : ℝ) / σ) ≤ 99 := by
    rw [show (40 : ℝ) * (5 / σ) = 200 / σ by ring, div_le_iff hσpos]
    nlinarith
  have hb2 : 40 * ((9 : ℝ)/2 / σ) ≤ 99 := by
    rw [show (40 : ℝ) * (9/2 / σ) = 180 / σ by ring, div_le_iff hσpos]
    nlinarith
  have hb02 : (109 : ℝ) ≤ 40 * ((3 : ℝ)/2 / σ2) := by
    rw [show (40 : ℝ) * (3/2 / σ2) = 60 / σ2 by ring, le_div_iff hσ2pos]
    nlinarith
  -- old sum is below exp 99 * 4, new sum above exp 109
  have hexp99 : Real.exp (40 * ((5 : ℝ) / σ)) ≤ Real.exp 99 :=
    Real.exp_le_exp.mpr hb0
  have hexp99b : Real.exp (40 * ((9 : ℝ)/2 / σ)) ≤ Real.exp 99 :=
    Real.exp_le_exp.mpr hb2
  have hexp1 : (1 : ℝ) ≤ Real.exp 99 := by
    rw [← Real.exp_zero]
    exact Real.exp_le_exp.mpr (by norm_num)
  have hTs : Real.exp (40 * ((5 : ℝ) / σ)) + 1 +
      Real.exp (40 * ((9 : ℝ)/2 / σ)) + Real.exp (40 * ((9 : ℝ)/2 / σ)) ≤
      4 * Real.exp 99 := by
    linarith
  have hT2 : Real.exp (109 : ℝ) ≤
      Real.exp (40 * ((3 : ℝ)/2 / σ2)) + 1 +
      Real.exp (40 * ((1 : ℝ) / σ2)) + Real.exp (40 * ((1 : ℝ) / σ2)) := by
    have h1 := Real.exp_pos (40 * ((1 : ℝ) / σ2))
    have hm : Real.exp (109 : ℝ) ≤ Real.exp (40 * ((3 : ℝ)/2 / σ2)) :=
      Real.exp_le_exp.mpr hb02
    linarith
  have hkey : (4 : ℝ) * Real.exp 99 < Real.exp 109 := by
    have h10 : (4 : ℝ) < Real.exp 10 := by
      have := Real.add_one_lt_exp (x := (10 : ℝ)) (by norm_num)
      linarith
    have hsplit : Real.exp (109 : ℝ) = Real.exp 10 * Real.exp 99 := by
      rw [← Real.exp_add]
      norm_num
    rw [hsplit]
    exact mul_lt_mul_of_pos_right h10 (Real.exp_pos 99)
  have hlt : Real.exp (40 * ((5 : ℝ) / σ)) + 1 +
      Real.exp (40 * ((9 : ℝ)/2 / σ)) + Real.exp (40 * ((9 : ℝ)/2 / σ)) <
      Real.exp (40 * ((3 : ℝ)/2 / σ2)) + 1 +
      Real.exp (40 * ((1 : ℝ) / σ2)) + Real.exp (40 * ((1 : ℝ) / σ2)) := by
    linarith
  have hTpos : (0 : ℝ) < Real.exp (40 * ((5 : ℝ) / σ)) + 1 +
      Real.exp (40 * ((9 : ℝ)/2 / σ)) + Real.exp (40 * ((9 : ℝ)/2 / σ)) := by
    have h0 := Real.exp_pos (40 * ((5 : ℝ) / σ))
    have h2 := Real.exp_pos (40 * ((9 : ℝ)/2 / σ))
    linarith
  exact inv_lt_inv_of_lt hTpos hlt

/-! ### List helper lemmas for the monotonicity argument -/

theorem foldl_max_le_spec :
    ∀ (xs : List ℝ) (a : ℝ),
      a ≤ xs.foldl max a ∧ ∀ y ∈ xs, y ≤ xs.foldl max a := by
  intro xs
  induction xs with
  | nil => intro a; exact ⟨le_refl a, by simp⟩
  | cons x xs ih =>
      intro a
      simp only [List.foldl_cons]
      refine ⟨le_trans (le_max_left a x) (ih (max a x)).1, ?_⟩
      intro y hy
      rcases List.mem_cons.mp hy with rfl | hy
      · exact le_trans (le_max_right a y) (ih (max a y)).1
      · exact (ih (max a x)).2 y hy

theorem foldl_max_mem :
    ∀ (xs : List ℝ) (a : ℝ), xs.foldl max a = a ∨ xs.foldl max a ∈ xs := by
  intro xs
  induction xs with
  | nil => intro a; exact Or.inl rfl
  | cons x xs ih =>
      intro a
      simp only [List.foldl_cons]
      rcases ih (max a x) with h | h
      · rcases max_choice a x with hax | hax
        · exact Or.inl (by rw [h, hax])
        · exact Or.inr (by rw [h, hax]; exact List.mem_cons_self x xs)
      · exact Or.inr (List.mem_cons_of_mem x h)

theorem foldl_min_le_spec :
    ∀ (xs : List ℝ) (a : ℝ),
      xs.foldl min a ≤ a ∧ ∀ y ∈ xs, xs.foldl min a ≤ y := by
  intro xs
  induction xs with
  | nil => intro a; exact ⟨le_refl a, by simp⟩
  | cons x xs ih =>
      intro a
      simp only [List.foldl_cons]
      refine ⟨le_trans (ih (min a x)).1 (min_le_left a x), ?_⟩
      intro y hy
      rcases List.mem_cons.mp hy with rfl | hy
      · exact le_trans (ih (min a y)).1 (min_le_right a y)
      · exact (ih (min a x)).2 y hy

theorem foldl_min_mem :
    ∀ (xs : List ℝ) (a : ℝ), xs.foldl min a = a ∨ xs.foldl min a ∈ xs := by
  intro xs
  induction xs with
  | nil => intro a; exact Or.inl rfl
  | cons x xs ih =>
      intro a
      simp only [List.foldl_cons]
      rcases ih (min a x) with h | h
      · rcases min_choice a x with hax | hax
        · exact Or.inl (by rw [h, hax])
        · exact Or.inr (by rw [h, hax]; exact List.mem_cons_self x xs)
      · exact Or.inr (List.mem_cons_of_mem x h)

theorem le_listMax {l : List ℝ} {y : ℝ} (hy : y ∈ l) : y ≤ listMax l := by
  cases l with
  | nil => simp at hy
  | cons x xs =>
      rcases List.mem_cons.mp hy with rfl | hy
      · exact (foldl_max_le_spec xs y).1
      · exact (foldl_max_le_spec xs x).2 y hy

theorem listMax_mem {l : List ℝ} (h : l ≠ []) : listMax l ∈ l := by
  cases l with
  | nil => exact absurd rfl h
  | cons x xs =>
      rcases foldl_max_mem xs x with hm | hm
      · rw [show listMax (x :: xs) = xs.foldl max x from rfl, hm]
        exact List.mem_cons_self x xs
      · exact List.mem_cons_of_mem x hm

theorem listMin_le {l : List ℝ} {y : ℝ} (hy : y ∈ l) : listMin l ≤ y := by
  cases l with
  | nil => simp at hy
  | cons x xs =>
      rcases List.mem_cons.mp hy with rfl | hy
      · exact (foldl_min_le_spec xs y).1
      · exact (foldl_min_le_spec xs x).2 y hy

theorem listMin_mem {l : List ℝ} (h : l ≠ []) : listMin l ∈ l := by
  cases l with
  | nil => exact absurd rfl h
  | cons x xs =>
      rcases foldl_min_mem xs x with hm | hm
      · rw [show listMin (x :: xs) = xs.foldl min x from rfl, hm]
        exact List.mem_cons_self x xs
      · exact List.mem_cons_of_mem x hm

theorem getD_mem {l : List ℝ} {i : ℕ} (hi : i < l.length) :
    l.getD i 0 ∈ l := by
  induction l generalizing i with
  | nil => simp at hi
  | cons x xs ih =>
      cases i with
      | zero => exact List.mem_cons_self x xs
      | succ j =>
          exact List.mem_cons_of_mem x (ih (by simpa using hi))

theorem getD_set_self {l : List ℝ} {i : ℕ} {b : ℝ} (hi : i < l.length) :
    (l.set i b).getD i 0 = b := by
  induction l generalizing i with
  | nil => simp at hi
  | cons x xs ih =>
      cases i with
      | zero => rfl
      | succ j => exact ih (by simpa using hi)

theorem getD_set_ne {l : List ℝ} {i j : ℕ} {b : ℝ} (hne : j ≠ i) :
    (l.set i b).getD j 0 = l.getD j 0 := by
  induction l generalizing i j with
  | nil => simp
  | cons x xs ih =>
      cases i with
      | zero =>
          cases j with
          | zero => exact absurd rfl hne
          | succ k => rfl
      | succ i' =>
          cases j with
          | zero => rfl
          | succ k => exact ih (fun h => hne (by rw [h]))

theorem mem_set_or_getD {l : List ℝ} {y b : ℝ} :
    ∀ {i : ℕ}, y ∈ l → y = l.getD i 0 ∨ y ∈ l.set i b := by
  induction l with
  | nil => intro i hy; simp at hy
  | cons x xs ih =>
      intro i hy
      cases i with
      | zero =>
          rcases List.mem_cons.mp hy with rfl | hy
          · exact Or.inl rfl
          · exact Or.inr (List.mem_cons_of_mem b hy)
      | succ k =>
          rcases List.mem_cons.mp hy with rfl | hy
          · exact Or.inr (List.mem_cons_self y (xs.set k b))
          · rcases ih (i := k) hy with h | h
            · exact Or.inl h
            · exact Or.inr (List.mem_cons_of_mem x h)

theorem mem_of_mem_set {l : List ℝ} {y b : ℝ} :
    ∀ {i : ℕ}, y ∈ l.set i b → y = b ∨ y ∈ l := by
  induction l with
  | nil => intro i hy; simp at hy
  | cons x xs ih =>
      intro i hy
      cases i with
      | zero =>
          rcases List.mem_cons.mp hy with rfl | hy
          · exact Or.inl rfl
          · exact Or.inr (List.mem_cons_of_mem x hy)
      | succ k =>
          rcases List.mem_cons.mp hy with rfl | hy
          · exact Or.inr (List.mem_cons_self y xs)
          · rcases ih (i := k) hy with h | h
            · exact Or.inl h
            · exact Or.inr (List.mem_cons_of_mem x h)

/-- Core two-point inequality behind min-max-normalized softmax monotonicity:
raising the scored coordinate from `x` to `x'` cannot increase any other
coordinate's normalized gap `(a - x)/(M - m)`.  The hypotheses record how the
list minimum/maximum can change when one entry is raised. -/
theorem minmax_core (a x xp mn mx mn2 mx2 : ℝ)
    (hd : x < xp)
    (hma : mn ≤ a) (haM : a ≤ mx) (hmx : mn ≤ x) (hxM : x ≤ mx)
    (hm2a : mn2 ≤ a) (_haM2 : a ≤ mx2) (hm2x2 : mn2 ≤ xp) (hx2M2 : xp ≤ mx2)
    (h7 : mn = x ∨ mn2 ≤ mn) (h9 : mn2 = xp ∨ mn ≤ mn2)
    (h8 : mx = x ∨ mx ≤ mx2) (h10 : mx2 = xp ∨ mx2 ≤ mx) :
    (a - xp) / (mx2 - mn2) ≤ (a - x) / (mx - mn) := by
  -- the min cannot decrease and the max cannot drop below the old max
  have hmm2 : mn ≤ mn2 := by
    rcases h9 with h | h
    · rcases h7 with h7 | h7
      · linarith
      · linarith
    · exact h
  have hMM2 : mx ≤ mx2 := by
    rcases h8 with h | h
    · linarith
    · exact h
  have hr : 0 ≤ mx - mn := by linarith
  have hr2 : 0 ≤ mx2 - mn2 := by linarith
  rcases eq_or_lt_of_le hr with hr0 | hrpos
  · -- old range zero: everything squeezed to a single point
    have hax : a = x := by linarith
    rcases eq_or_lt_of_le hr2 with hr02 | hrpos2
    · rw [← hr0, ← hr02]
      simp
    · rw [← hr0]
      simp only [div_zero]
      apply div_nonpos_of_nonpos_of_nonneg <;> linarith
  rcases eq_or_lt_of_le hr2 with hr02 | hrpos2
  · -- new range zero: the raised entry equals everything, so `a = x'`
    have hax2 : a = xp := by linarith
    rw [← hr02]
    simp only [div_zero]
    apply div_nonneg <;> linarith
  rw [div_le_div_iff hrpos2 hrpos]
  -- case split on whether the raised entry was/became the extremum
  have hAB : mn2 = mn ∨ mn = x := by
    rcases h7 with h | h
    · exact Or.inr h
    · rcases h9 with h9 | h9
      · exfalso; linarith
      · exact Or.inl (le_antisymm h h9)
  have hCD : mx2 = mx ∨ mx2 = xp := by
    rcases h10 with h | h
    · exact Or.inr h
    · rcases h8 with h8 | h8
      · exfalso; linarith
      · exact Or.inl (le_antisymm h h8)
  rcases hAB with hA | hB
  · rcases hCD with hC | hD
    · -- extrema unchanged
      rw [hA, hC]
      nlinarith
    · -- min unchanged, raised entry is the new max
      rw [hA, hD]
      nlinarith [mul_nonneg (by linarith : (0:ℝ) ≤ a - mn)
          (by linarith : (0:ℝ) ≤ xp - mx),
        mul_nonneg (by linarith : (0:ℝ) ≤ xp - mn)
          (by linarith : (0:ℝ) ≤ mx - x)]
  · rcases hCD with hC | hD
    · -- raised entry was the min, max unchanged
      rw [hC, hB]
      nlinarith [mul_nonneg (by linarith : (0:ℝ) ≤ mx - x)
          (by linarith : (0:ℝ) ≤ xp - mn2),
        mul_nonneg (by linarith : (0:ℝ) ≤ mx - a)
          (by linarith : (0:ℝ) ≤ mn2 - x)]
    · -- raised entry was the min and becomes the new max
      rw [hD, hB]
      nlinarith [mul_nonneg (by linarith : (0:ℝ) ≤ xp - a)
          (by linarith : (0:ℝ) ≤ mx - x),
        mul_nonneg (by linarith : (0:ℝ) ≤ a - x)
          (by linarith : (0:ℝ) ≤ xp - mn2)]

theorem normalize_none (s : List ℝ) :
    normalizeSimilarities s .none = s := by
  unfold normalizeSimilarities
  rw [if_pos (Or.inl rfl)]

/-- Pairwise gaps of min-max-normalized similarities: whether or not the range
is zero (uniform fallback), the gap between entries `j` and `i` equals
`(sⱼ - sᵢ)/(max - min)` (with `x/0 = 0` in the degenerate case). -/
theorem normalize_minmax_gap (s : List ℝ) (h2 : 2 ≤ s.length) {i j : ℕ}
    (hi : i < s.length) (hj : j < s.length) :
    (normalizeSimilarities s .minmax).getD j 0 -
      (normalizeSimilarities s .minmax).getD i 0 =
    (s.getD j 0 - s.getD i 0) / (listMax s - listMin s) := by
  unfold normalizeSimilarities
  rw [if_neg (by simp; omega)]
  dsimp only
  by_cases hr : listMax s - listMin s = 0
  · rw [if_pos hr]
    have hall : s.getD j 0 = s.getD i 0 := by
      have h1 := listMin_le (getD_mem hj)
      have h2j := le_listMax (getD_mem hj)
      have h3 := listMin_le (getD_mem hi)
      have h4 := le_listMax (getD_mem hi)
      linarith
    rw [getD_map_lt (d := 0) _ _ j hj, getD_map_lt (d := 0) _ _ i hi,
      sub_self, hall, sub_self, zero_div]
  · rw [if_neg hr]
    rw [getD_map_lt (d := 0) _ _ j hj, getD_map_lt (d := 0) _ _ i hi,
      div_sub_div_same, sub_sub_sub_cancel_right]

/-- Raising entry `i` of a similarity vector never increases the normalized
gap `vⱼ - vᵢ` of any entry toward entry `i`, for the `none` and `minmax`
normalization modes. -/
theorem gap_mono_none_minmax (s : List ℝ) (i j : ℕ) (δ : ℝ)
    (m : SimilarityNormalization) (hm : m = .none ∨ m = .minmax)
    (hδ : 0 < δ) (hi : i < s.length) (hj : j < s.length) :
    (normalizeSimilarities (s.set i (s.getD i 0 + δ)) m).getD j 0 -
      (normalizeSimilarities (s.set i (s.getD i 0 + δ)) m).getD i 0 ≤
    (normalizeSimilarities s m).getD j 0 -
      (normalizeSimilarities s m).getD i 0 := by
  by_cases hji : j = i
  · subst hji
    rw [sub_self, sub_self]
  rcases hm with rfl | rfl
  · -- mode "none": raw gaps
    rw [normalize_none, normalize_none, getD_set_ne hji,
      getD_set_self hi]
    linarith
  · -- mode "minmax"
    have h2 : 2 ≤ s.length := by
      rcases Nat.lt_or_ge s.length 2 with h | h
      · interval_cases hsl : s.length <;> omega
      · exact h
    have hlen : (s.set i (s.getD i 0 + δ)).length = s.length :=
      List.length_set s i _
    have hisp : i < (s.set i (s.getD i 0 + δ)).length := by rw [hlen]; exact hi
    have hjsp : j < (s.set i (s.getD i 0 + δ)).length := by rw [hlen]; exact hj
    rw [normalize_minmax_gap _ (by rw [hlen]; exact h2) hisp hjsp,
      normalize_minmax_gap _ h2 hi hj,
      getD_set_ne hji, getD_set_self hi]
    have hsne : s ≠ [] := by
      intro h
      rw [h] at hi
      simp at hi
    have hspne : s.set i (s.getD i 0 + δ) ≠ [] := by
      intro h
      have := congrArg List.length h
      rw [hlen] at this
      rw [this] at hi
      simp at hi
    set a := s.getD j 0
    set x := s.getD i 0
    set xp := s.getD i 0 + δ
    have hasp : a ∈ s.set i xp := by
      have : (s.set i xp).getD j 0 ∈ s.set i xp := getD_mem hjsp
      rwa [getD_set_ne hji] at this
    have hxpsp : xp ∈ s.set i xp := by
      have : (s.set i xp).getD i 0 ∈ s.set i xp := getD_mem hisp
      rwa [getD_set_self hi] at this
    refine minmax_core a x xp (listMin s) (listMax s)
      (listMin (s.set i xp)) (listMax (s.set i xp))
      (by simp only [xp]; linarith)
      (listMin_le (getD_mem hj)) (le_listMax (getD_mem hj))
      (listMin_le (getD_mem hi)) (le_listMax (getD_mem hi))
      (listMin_le hasp) (le_listMax hasp)
      (listMin_le hxpsp) (le_listMax hxpsp)
      ?_ ?_ ?_ ?_
    · rcases mem_set_or_getD (i := i) (b := xp) (listMin_mem hsne) with h | h
      · exact Or.inl h
      · exact Or.inr (listMin_le h)
    · rcases mem_of_mem_set (listMin_mem hspne) with h | h
      · exact Or.inl h
      · exact Or.inr (listMin_le h)
    · rcases mem_set_or_getD (i := i) (b := xp) (listMax_mem hsne) with h | h
      · exact Or.inl h
      · exact Or.inr (le_listMax h)
    · rcases mem_of_mem_set (listMax_mem hspne) with h | h
      · exact Or.inl h
      · exact Or.inr (le_listMax h)

/-- C7 (amended): for the `none` and `minmax` normalization modes (the claim
fails for `zscore`, see the counterexample), strictly increasing one anchor's
similarity does not decrease that anchor's probability mass, for every
temperature `t > 0`. -/
theorem c7_monotone_none_minmax (s : List ℝ) (i : ℕ) (δ t : ℝ)
    (m : SimilarityNormalization) (hm : m = .none ∨ m = .minmax)
    (hi : i < s.length) (hδ : 0 < δ) (ht : 0 < t) :
    (similaritiesToDistribution s t m).getD i 0 ≤
      (similaritiesToDistribution (s.set i (s.getD i 0 + δ)) t m).getD i 0 := by
  have hlen : (s.set i (s.getD i 0 + δ)).length = s.length :=
    List.length_set s i _
  have hisp : i < (s.set i (s.getD i 0 + δ)).length := by rw [hlen]; exact hi
  rw [dist_getD_eq_inv_sum s t m i hi,
    dist_getD_eq_inv_sum _ t m i hisp, hlen]
  have hpos : (0 : ℝ) <
      ∑ j ∈ Finset.range s.length,
        Real.exp (((normalizeSimilarities (s.set i (s.getD i 0 + δ)) m).getD
          j 0 - (normalizeSimilarities (s.set i (s.getD i 0 + δ)) m).getD
          i 0) / t) := by
    apply Finset.sum_pos (fun j _ => Real.exp_pos _)
    exact Finset.nonempty_range_iff.mpr (by omega)
  apply inv_le_inv_of_le hpos
  apply Finset.sum_le_sum
  intro j hjr
  apply Real.exp_le_exp.mpr
  apply (div_le_div_right ht).mpr
  exact gap_mono_none_minmax s i j δ m hm hδ hi (Finset.mem_range.mp hjr)

/-- C7 witness: raising the first similarity of `[0, 1]` by `1` under minmax
normalization at `t = 1`. -/
theorem c7_witness :
    ((SimilarityNormalization.minmax = SimilarityNormalization.none ∨
        SimilarityNormalization.minmax = SimilarityNormalization.minmax) ∧
      0 < ([(0 : ℝ), 1] : List ℝ).length ∧ (0 : ℝ) < 1 ∧ (0 : ℝ) < 1) ∧
    (similaritiesToDistribution [(0 : ℝ), 1] 1 .minmax).getD 0 0 ≤
      (similaritiesToDistribution
        ([(0 : ℝ), 1].set 0 (([(0 : ℝ), 1].getD 0 0) + 1)) 1
        .minmax).getD 0 0 :=
  ⟨⟨Or.inr rfl, by norm_num, by norm_num, by norm_num⟩,
    c7_monotone_none_minmax [(0 : ℝ), 1] 0 1 1 .minmax (Or.inr rfl)
      (by norm_num) (by norm_num) (by norm_num)⟩

/-! ### C8: temperature limit behaviour -/

theorem list_sum_nonneg_all_zero :
    ∀ (l : List ℝ), (∀ x ∈ l, 0 ≤ x) → l.sum = 0 → ∀ x ∈ l, x = 0 := by
  intro l
  induction l with
  | nil => intro _ _ x hx; simp at hx
  | cons a as ih =>
      intro hnn hsum x hx
      have hha : 0 ≤ a := hnn a (List.mem_cons_self a as)
      have hrest : 0 ≤ as.sum :=
        List.sum_nonneg (fun y hy => hnn y (List.mem_cons_of_mem a hy))
      simp only [List.sum_cons] at hsum
      have ha0 : a = 0 := by linarith
      have hs0 : as.sum = 0 := by linarith
      rcases List.mem_cons.mp hx with rfl | hx
      · exact ha0
      · exact ih (fun y hy => hnn y (List.mem_cons_of_mem a hy)) hs0 x hx

/-- Strict similarity comparisons survive every normalization mode (given at
least two entries, which rules out the length-1 early return making the claim
trivial). -/
theorem normalize_strict_lt (s : List ℝ) (m : SimilarityNormalization)
    {i m0 : ℕ} (hi : i < s.length) (hm0 : m0 < s.length) (hne : i ≠ m0)
    (hlt : s.getD i 0 < s.getD m0 0) :
    (normalizeSimilarities s m).getD i 0 <
      (normalizeSimilarities s m).getD m0 0 := by
  have h2 : 2 ≤ s.length := by omega
  cases m with
  | none => rw [normalize_none]; exact hlt
  | minmax =>
      unfold normalizeSimilarities
      rw [if_neg (by simp; omega)]
      dsimp only
      have hminle := listMin_le (getD_mem hi)
      have hmaxle := le_listMax (getD_mem hm0)
      have hr : ¬(listMax s - listMin s = 0) := by
        intro h
        linarith
      rw [if_neg hr]
      rw [getD_map_lt (d := 0) _ _ i hi, getD_map_lt (d := 0) _ _ m0 hm0]
      apply (div_lt_div_right (by linarith)).mpr
      linarith
  | zscore =>
      unfold normalizeSimilarities
      rw [if_neg (by simp; omega)]
      dsimp only
      set μ := s.sum / (s.length : ℝ) with hμ
      have hvnn : (0 : ℝ) ≤ (s.map (fun x => (x - μ) ^ 2)).sum := by
        apply List.sum_nonneg
        intro y hy
        obtain ⟨x, -, rfl⟩ := List.mem_map.mp hy
        positivity
      have hvarpos :
          0 < (s.map (fun x => (x - μ) ^ 2)).sum / (s.length : ℝ) := by
        rcases lt_or_eq_of_le hvnn with h | h
        · apply div_pos h
          have : 0 < s.length := by omega
          exact_mod_cast this
        · exfalso
          have hall := list_sum_nonneg_all_zero (s.map (fun x => (x - μ) ^ 2))
            (fun y hy => by
              obtain ⟨x, -, rfl⟩ := List.mem_map.mp hy
              positivity) h.symm
          have hieq : s.getD i 0 = μ := by
            have := hall ((s.getD i 0 - μ) ^ 2)
              (List.mem_map_of_mem _ (getD_mem hi))
            have hz : s.getD i 0 - μ = 0 := by
              have := sq_eq_zero_iff.mp this
              exact this
            linarith
          have hmeq : s.getD m0 0 = μ := by
            have := hall ((s.getD m0 0 - μ) ^ 2)
              (List.mem_map_of_mem _ (getD_mem hm0))
            have hz : s.getD m0 0 - μ = 0 := by
              have := sq_eq_zero_iff.mp this
              exact this
            linarith
          rw [hieq, hmeq] at hlt
          exact lt_irrefl μ hlt
      have hstd : ¬(Real.sqrt ((s.map (fun x => (x - μ) ^ 2)).sum /
          (s.length : ℝ)) = 0) := by
        rw [Real.sqrt_eq_zero (le_of_lt hvarpos)]
        exact ne_of_gt hvarpos
      rw [if_neg hstd]
      rw [getD_map_lt (d := 0) _ _ i hi, getD_map_lt (d := 0) _ _ m0 hm0]
      apply (div_lt_div_right (Real.sqrt_pos.mpr hvarpos)).mpr
      linarith

theorem dist_tendsto_uniform (s : List ℝ) (m : SimilarityNormalization)
    (hne : s ≠ []) {i : ℕ} (hi : i < s.length) :
    Filter.Tendsto (fun t => (similaritiesToDistribution s t m).getD i 0)
      Filter.atTop (nhds (1 / (s.length : ℝ))) := by
  have hfun : (fun t : ℝ => (similaritiesToDistribution s t m).getD i 0) =
      fun t => (∑ j ∈ Finset.range s.length, Real.exp
        (((normalizeSimilarities s m).getD j 0 -
          (normalizeSimilarities s m).getD i 0) / t))⁻¹ :=
    funext fun t => dist_getD_eq_inv_sum s t m i hi
  rw [hfun]
  have hterm : ∀ j ∈ Finset.range s.length,
      Filter.Tendsto (fun t : ℝ => Real.exp
        (((normalizeSimilarities s m).getD j 0 -
          (normalizeSimilarities s m).getD i 0) / t))
        Filter.atTop (nhds 1) := by
    intro j _
    set c := (normalizeSimilarities s m).getD j 0 -
      (normalizeSimilarities s m).getD i 0
    have h1 : Filter.Tendsto (fun t : ℝ => c / t) Filter.atTop (nhds 0) := by
      have := tendsto_inv_atTop_zero (𝕜 := ℝ) |>.const_mul c
      simpa [div_eq_mul_inv] using this
    have h2 := (Real.continuous_exp.tendsto 0).comp h1
    simpa [Function.comp, Real.exp_zero] using h2
  have hsum := tendsto_finset_sum (Finset.range s.length) hterm
  simp only [Finset.sum_const, Finset.card_range, nsmul_eq_mul,
    mul_one] at hsum
  have hn : ((s.length : ℝ)) ≠ 0 := by
    have : s.length ≠ 0 := fun h => hne (List.length_eq_zero.mp h)
    exact_mod_cast this
  have := hsum.inv₀ hn
  simpa [one_div] using this

theorem dist_tendsto_onehot_self (s : List ℝ) (m : SimilarityNormalization)
    {m0 : ℕ} (hm0 : m0 < s.length)
    (hmax : ∀ j, j < s.length → j ≠ m0 → s.getD j 0 < s.getD m0 0) :
    Filter.Tendsto (fun t => (similaritiesToDistribution s t m).getD m0 0)
      (nhdsWithin 0 (Set.Ioi 0)) (nhds 1) := by
  have hfun : (fun t : ℝ => (similaritiesToDistribution s t m).getD m0 0) =
      fun t => (∑ j ∈ Finset.range s.length, Real.exp
        (((normalizeSimilarities s m).getD j 0 -
          (normalizeSimilarities s m).getD m0 0) / t))⁻¹ :=
    funext fun t => dist_getD_eq_inv_sum s t m m0 hm0
  rw [hfun]
  have hterm : ∀ j ∈ Finset.range s.length,
      Filter.Tendsto (fun t : ℝ => Real.exp
        (((normalizeSimilarities s m).getD j 0 -
          (normalizeSimilarities s m).getD m0 0) / t))
        (nhdsWithin 0 (Set.Ioi 0))
        (nhds (if j = m0 then (1 : ℝ) else 0)) := by
    intro j hj
    by_cases hjm : j = m0
    · subst hjm
      rw [if_pos rfl]
      have hconst : (fun t : ℝ => Real.exp
          (((normalizeSimilarities s m).getD j 0 -
            (normalizeSimilarities s m).getD j 0) / t)) = fun _ => 1 :=
        funext fun t => by rw [sub_self, zero_div, Real.exp_zero]
      rw [hconst]
      exact tendsto_const_nhds
    · rw [if_neg hjm]
      have hc : (normalizeSimilarities s m).getD j 0 -
          (normalizeSimilarities s m).getD m0 0 < 0 :=
        sub_neg.mpr (normalize_strict_lt s m (Finset.mem_range.mp hj) hm0
          hjm (hmax j (Finset.mem_range.mp hj) hjm))
      have h1 := Filter.Tendsto.const_mul_atTop_of_neg hc
        tendsto_inv_zero_atTop
      have h2 := Real.tendsto_exp_atBot.comp h1
      simpa [Function.comp_def, div_eq_mul_inv] using h2
  have hsum := tendsto_finset_sum (Finset.range s.length) hterm
  rw [Finset.sum_ite_eq' (Finset.range s.length) m0 (fun _ => (1 : ℝ))]
    at hsum
  rw [if_pos (Finset.mem_range.mpr hm0)] at hsum
  have := hsum.inv₀ one_ne_zero
  simpa using this

theorem dist_tendsto_onehot_other (s : List ℝ) (m : SimilarityNormalization)
    {i m0 : ℕ} (hi : i < s.length) (hm0 : m0 < s.length) (hne : i ≠ m0)
    (hmax : ∀ j, j < s.length → j ≠ m0 → s.getD j 0 < s.getD m0 0) :
    Filter.Tendsto (fun t => (similaritiesToDistribution s t m).getD i 0)
      (nhdsWithin 0 (Set.Ioi 0)) (nhds 0) := by
  have hfun : (fun t : ℝ => (similaritiesToDistribution s t m).getD i 0) =
      fun t => (∑ j ∈ Finset.range s.length, Real.exp
        (((normalizeSimilarities s m).getD j 0 -
          (normalizeSimilarities s m).getD i 0) / t))⁻¹ :=
    funext fun t => dist_getD_eq_inv_sum s t m i hi
  rw [hfun]
  have hc : 0 < (normalizeSimilarities s m).getD m0 0 -
      (normalizeSimilarities s m).getD i 0 :=
    sub_pos.mpr (normalize_strict_lt s m hi hm0 hne (hmax i hi hne))
  have hlow : Filter.Tendsto (fun t : ℝ => Real.exp
      (((normalizeSimilarities s m).getD m0 0 -
        (normalizeSimilarities s m).getD i 0) / t))
      (nhdsWithin 0 (Set.Ioi 0)) Filter.atTop := by
    have h1 := Filter.Tendsto.const_mul_atTop
      (sub_pos.mpr (normalize_strict_lt s m hi hm0 hne (hmax i hi hne)))
      tendsto_inv_zero_atTop
    have h2 := Real.tendsto_exp_atTop.comp h1
    simpa [Function.comp_def, div_eq_mul_inv] using h2
  have hsum : Filter.Tendsto (fun t : ℝ =>
      ∑ j ∈ Finset.range s.length, Real.exp
        (((normalizeSimilarities s m).getD j 0 -
          (normalizeSimilarities s m).getD i 0) / t))
      (nhdsWithin 0 (Set.Ioi 0)) Filter.atTop := by
    apply Filter.tendsto_atTop_mono _ hlow
    intro t
    exact Finset.single_le_sum
      (f := fun j => Real.exp (((normalizeSimilarities s m).getD j 0 -
        (normalizeSimilarities s m).getD i 0) / t))
      (fun j _ => le_of_lt (Real.exp_pos _)) (Finset.mem_range.mpr hm0)
  exact Filter.Tendsto.inv_tendsto_atTop hsum

/-- C8 (amended): for every similarity vector and every normalization mode,
the distribution tends to the uniform distribution (`1/N` per entry) as the
temperature tends to infinity; and, provided the highest similarity is
attained at a UNIQUE index, the distribution tends to one-hot on that index
as the temperature tends to `0⁺`.  (With ties the distribution does not
concentrate on the lowest tied index — see the counterexample.) -/
theorem c8_temperature_limits (s : List ℝ) (m : SimilarityNormalization)
    (hne : s ≠ []) :
    (∀ i, i < s.length →
      Filter.Tendsto (fun t => (similaritiesToDistribution s t m).getD i 0)
        Filter.atTop (nhds (1 / (s.length : ℝ)))) ∧
    (∀ m0, m0 < s.length →
      (∀ j, j < s.length → j ≠ m0 → s.getD j 0 < s.getD m0 0) →
      Filter.Tendsto (fun t => (similaritiesToDistribution s t m).getD m0 0)
        (nhdsWithin 0 (Set.Ioi 0)) (nhds 1) ∧
      ∀ i, i < s.length → i ≠ m0 →
        Filter.Tendsto (fun t => (similaritiesToDistribution s t m).getD i 0)
          (nhdsWithin 0 (Set.Ioi 0)) (nhds 0)) := by
  constructor
  · intro i hi
    exact dist_tendsto_uniform s m hne hi
  · intro m0 hm0 hmax
    exact ⟨dist_tendsto_onehot_self s m hm0 hmax,
      fun i hi hne' => dist_tendsto_onehot_other s m hi hm0 hne' hmax⟩

/-- C8 counterexample: with the tied similarity vector `[1, 1]` (mode
`none`), the first entry of the distribution is `1/2` for every temperature,
so as `t → 0⁺` it converges to `1/2`, not to `1` as a lowest-index-tie-break
one-hot limit would require. -/
theorem c8_counterexample :
    Filter.Tendsto
      (fun t => (similaritiesToDistribution [(1 : ℝ), 1] t .none).getD 0 0)
      (nhdsWithin 0 (Set.Ioi 0)) (nhds (1/2)) ∧ ((1 : ℝ)/2) ≠ 1 := by
  constructor
  · have hfun : (fun t : ℝ =>
        (similaritiesToDistribution [(1 : ℝ), 1] t .none).getD 0 0) =
        fun _ => (1 : ℝ)/2 := by
      funext t
      rw [dist_getD_eq_inv_sum [(1 : ℝ), 1] t .none 0 (by norm_num),
        normalize_none]
      rw [show ([(1 : ℝ), 1].length) = 2 from rfl]
      rw [Finset.sum_range_succ, Finset.sum_range_succ,
        Finset.sum_range_zero]
      norm_num [Real.exp_zero]
    rw [hfun]
    exact tendsto_const_nhds
  · norm_num

/-- C8 witness at the two-entry vector `[0, 1]` with its unique maximum at
index 1, minmax mode. -/
theorem c8_witness :
    (([(0 : ℝ), 1] : List ℝ) ≠ [] ∧ 1 < ([(0 : ℝ), 1] : List ℝ).length ∧
      (∀ j, j < ([(0 : ℝ), 1] : List ℝ).length → j ≠ 1 →
        ([(0 : ℝ), 1] : List ℝ).getD j 0 < ([(0 : ℝ), 1] : List ℝ).getD 1 0)) ∧
    (Filter.Tendsto
      (fun t => (similaritiesToDistribution [(0 : ℝ), 1] t .minmax).getD 0 0)
      Filter.atTop (nhds (1 / (([(0 : ℝ), 1] : List ℝ).length : ℝ))) ∧
    Filter.Tendsto
      (fun t => (similaritiesToDistribution [(0 : ℝ), 1] t .minmax).getD 1 0)
      (nhdsWithin 0 (Set.Ioi 0)) (nhds 1)) := by
  have hmax : ∀ j, j < ([(0 : ℝ), 1] : List ℝ).length → j ≠ 1 →
      ([(0 : ℝ), 1] : List ℝ).getD j 0 < ([(0 : ℝ), 1] : List ℝ).getD 1 0 := by
    intro j hj hne
    simp only [List.length_cons, List.length_nil] at hj
    have hj0 : j = 0 := by omega
    subst hj0
    norm_num
  refine ⟨⟨by simp, by norm_num, hmax⟩, ?_, ?_⟩
  · exact (c8_temperature_limits [(0 : ℝ), 1] .minmax (by simp)).1 0
      (by norm_num)
  · exact ((c8_temperature_limits [(0 : ℝ), 1] .minmax (by simp)).2 1
      (by norm_num) hmax).1


/-! ### Scale Anchor System (scale-anchors, `resolveAnchors`) -/

/-- The `SurveyQuestion.type` union. -/
inductive QType
  | likert
  | nps
  | multiple_choice
  | ranking
  | open_ended
  | matrix
  | slider
  | image_rating
  | image_choice
  | image_comparison
  deriving DecidableEq, Repr

/-- The `scaleAnchors` field: low/high pole labels. -/
structure ScaleAnchorLabels where
  low : String
  high : String

/-- The fields of `SurveyQuestion` read by the anchor resolver (the TS
interface carries further fields — options, conditions, matrix rows — that
`resolveAnchors` never touches). -/
structure SurveyQuestion where
  id : String
  type : QType
  text : String
  scaleMin : Option Int := Option.none
  scaleMax : Option Int := Option.none
  scaleAnchors : Option ScaleAnchorLabels := Option.none

/-- `ScaleAnchorSet`. -/
structure ScaleAnchorSet where
  semantic : String
  anchors : List String
  scaleMin : Int
  scaleMax : Int

/-- `AnchorTemplate`: canonical 5-point list, plus optional 7- and 11-point
variants. -/
structure AnchorTemplate where
  anchors5 : List String
  anchors7 : Option (List String) := Option.none
  anchors11 : Option (List String) := Option.none

def TEMPLATES : List (String × AnchorTemplate) := [
  ("agreement", ⟨["Completely wrong. I strongly disagree, this doesn\x27t match reality at all and I reject this statement.",
    "I don\x27t think so. I disagree with this, there are problems and it doesn\x27t seem right to me.",
    "Not sure either way. I could see arguments for and against, I don\x27t have a strong opinion on this.",
    "I think so, mostly. I agree that this is about right, with maybe a few minor exceptions.",
    "Absolutely right. I completely agree, this is exactly correct and perfectly describes the situation."],
    (some ["I strongly disagree. This is completely contrary to my views.",
    "I disagree. I don\x27t think this is accurate.",
    "I slightly disagree. I have some reservations about this.",
    "I neither agree nor disagree. I\x27m neutral on this.",
    "I slightly agree. I\x27m somewhat inclined to agree.",
    "I agree. I think this is mostly correct.",
    "I strongly agree. This is absolutely right."]),
    Option.none⟩),
  ("satisfaction", ⟨["Terrible. I was frustrated and angry the entire time, nothing worked right and I regret using this.",
    "Not great. I ran into problems and it was harder than it should have been, below what I expected.",
    "It was okay. Nothing special, not bad but not good either. Pretty average and forgettable.",
    "Pretty good. Things went smoothly for the most part, just a couple of small things that could be better.",
    "Excellent. Everything was smooth, fast, and easy. I\x27m really impressed and delighted with the result."],
    Option.none,
    Option.none⟩),
  ("likelihood", ⟨["No, I definitely won\x27t. I had a bad experience and I have no intention of doing this again. I\x27ll go elsewhere.",
    "Probably not. It wasn\x27t great and I have better options available. I\x27d need a strong reason to come back.",
    "Maybe, maybe not. It depends on the circumstances and what\x27s available. I don\x27t feel strongly either way.",
    "Yeah, I probably will. It was decent enough and fairly convenient. I\x27d come back if the opportunity arises.",
    "Absolutely, I definitely will. I had a great experience and I\x27m already looking forward to doing this again soon."],
    Option.none,
    Option.none⟩),
  ("ease", ⟨["Incredibly frustrating. I kept getting stuck and couldn\x27t figure out what to do next. It felt like fighting the system every step of the way.",
    "Kind of a hassle. I ran into a couple of confusing parts and had to stop and think more than I should have. Not the smoothest experience.",
    "It was fine, I guess. Not particularly hard but not effortless either. I got through it without too much trouble.",
    "Pretty straightforward. I figured things out quickly and only paused once or twice. Most of it just made sense right away.",
    "Couldn\x27t have been simpler. Everything was obvious and intuitive, I breezed through the whole thing without a second thought."],
    Option.none,
    Option.none⟩),
  ("importance", ⟨["Couldn\x27t care less about this. It has zero impact on my life and I wouldn\x27t even notice if it disappeared tomorrow.",
    "It\x27s on my radar but barely. There are way bigger things I worry about, this is pretty low on my priority list.",
    "It matters somewhat. I\x27d pay attention to it but it\x27s not something that keeps me up at night or changes my decisions.",
    "This is a big deal to me. I think about it regularly and it genuinely affects my choices and how I go about things.",
    "This is absolutely essential. I can\x27t imagine doing without it, it\x27s one of the most important things in my life right now."],
    Option.none,
    Option.none⟩),
  ("familiarity", ⟨["Never heard of it. This is completely new to me, I have no idea what it is or what it does. Drawing a total blank.",
    "I\x27ve seen the name around but that\x27s about it. I couldn\x27t really tell you much about it beyond the most surface-level stuff.",
    "I know the basics. I\x27ve come across it enough to have a general sense of what it\x27s about, but I\x27m no expert by any means.",
    "I know it pretty well. I\x27ve used it or dealt with it enough times that I\x27m comfortable with it and could explain it to someone.",
    "I know this inside and out. I use it all the time, I could talk about it in detail, and people come to me with questions about it."],
    Option.none,
    Option.none⟩),
  ("appeal", ⟨["Hard pass. Nothing about this interests me at all. I scrolled right past it and wouldn\x27t give it a second look.",
    "Eh, it\x27s okay I guess. There\x27s maybe one small thing that caught my eye, but overall it\x27s not really for me.",
    "It\x27s interesting enough. I can see why people would like it, and I might check it out if the timing was right.",
    "Yeah, this is really appealing. I\x27m drawn to it and I\x27d actively look into it more. It\x27s got my attention for sure.",
    "I absolutely love this. I\x27m excited just thinking about it, this is exactly my kind of thing and I want it now."],
    Option.none,
    Option.none⟩),
  ("value", ⟨["Total rip-off. I feel cheated paying this much for what you actually get. Completely overpriced and not worth a fraction of the cost.",
    "Not great value. It feels a bit expensive for what it is. I\x27d expect more features or better quality at this price point.",
    "Fair enough for the price. You get what you pay for, nothing more and nothing less. It\x27s reasonable but not a bargain.",
    "Good value for the money. I feel like I\x27m getting a solid deal here. The quality and features justify the price and then some.",
    "Incredible deal. I can\x27t believe how much you get for this price. It\x27s an absolute steal and I\x27d happily pay more for it."],
    Option.none,
    Option.none⟩),
  ("trust", ⟨["I don\x27t trust this one bit. Something feels off and I\x27d be very careful sharing any personal information or relying on it for anything important.",
    "I\x27m a little skeptical. There are some red flags that make me uneasy. I\x27d proceed with caution and double-check things independently.",
    "I\x27m on the fence. I don\x27t have a strong reason to trust or distrust it. I\x27d give it a chance but I\x27m keeping my guard up.",
    "I trust it for the most part. It seems reliable and legitimate. I\x27d feel comfortable using it without worrying too much.",
    "I trust this completely. It has a solid track record and I\x27d feel totally comfortable recommending it and relying on it for important things."],
    Option.none,
    Option.none⟩),
  ("quality", ⟨["Terrible quality. It feels cheap, flimsy, and poorly made. I\x27m honestly surprised this passed any kind of quality check. Not acceptable at all.",
    "Below average quality. There are some noticeable issues like rough edges or inconsistent finish. It works but you can tell corners were cut.",
    "Decent quality overall. Nothing wrong with it but nothing that wows me either. It does what it\x27s supposed to do, standard stuff.",
    "Really good quality. Well-made, solid feel, and clearly some thought went into the details. I\x27m impressed with the craftsmanship.",
    "Outstanding quality. Premium feel in every way, this is clearly best-in-class. The attention to detail and materials are top-notch."],
    Option.none,
    Option.none⟩),
  ("frequency", ⟨["Never, not once. This just isn\x27t something that\x27s part of my routine at all. I can\x27t remember the last time I did this, if ever.",
    "Hardly ever. Maybe once in a blue moon if the stars align. It\x27s rare enough that it barely registers as something I do.",
    "Every now and then. I do it occasionally when the situation calls for it, but it\x27s not a regular habit. Maybe a few times a month.",
    "Pretty regularly. It\x27s part of my routine at this point. I do it multiple times a week and it feels natural and habitual.",
    "All the time, practically every day. I can\x27t imagine not doing this, it\x27s completely woven into my daily life at this point."],
    Option.none,
    Option.none⟩),
  ("uniqueness", ⟨["Nothing special about this at all. It\x27s basically a copy of what\x27s already out there. I\x27ve seen this exact same thing a dozen times before.",
    "Mostly the same as other options. There might be a small twist here or there but nothing that really sets it apart in a meaningful way.",
    "It has some distinctive qualities. A few things about it feel fresh or different, though the core concept isn\x27t entirely new.",
    "This really stands out from the crowd. It has a clear identity and does things differently enough that I\x27d remember it and point it out to others.",
    "Truly one of a kind. I\x27ve never seen anything quite like this before. It\x27s so original and different that it feels like it created its own category."],
    Option.none,
    Option.none⟩),
  ("relevance", ⟨["This has nothing to do with me. It\x27s completely off-base for my situation and I can\x27t see any connection to what I actually need.",
    "Tangentially related at best. There\x27s a loose connection but it doesn\x27t really address what I\x27m looking for in any meaningful way.",
    "Somewhat relevant. Parts of it apply to my situation and I can see some usefulness, but it\x27s not exactly what I had in mind.",
    "Very relevant to what I need. It closely aligns with my situation and addresses most of the things I\x27m actually looking for.",
    "Spot on, exactly what I was looking for. This fits my needs perfectly and I feel like it was made specifically for my situation."],
    Option.none,
    Option.none⟩),
  ("impression", ⟨["Awful first impression. Everything about it rubs me the wrong way and I came away feeling really negative. Not a fan at all.",
    "Not a great impression. A few things turned me off and I have some real concerns. I\x27d need convincing to give it another chance.",
    "My impression is neutral. I don\x27t feel strongly one way or the other. It didn\x27t wow me but it didn\x27t put me off either.",
    "Good impression overall. I came away feeling positive and optimistic about it. There\x27s a lot to like and I\x27m interested to see more.",
    "Absolutely fantastic impression. I\x27m blown away by everything I\x27ve seen. This exceeded all my expectations and I\x27m genuinely enthusiastic."],
    Option.none,
    Option.none⟩),
  ("purchase_intent", ⟨["No chance I\x27m buying this. It\x27s not for me at all and I\x27d never spend my money on it. I\x27d walk right past it every time.",
    "Probably not going to buy it. I\x27m not very interested and there are better ways I could spend my money. It\x27d take a lot to convince me.",
    "I might buy it, I might not. I\x27m on the fence. If the price was right or someone recommended it, I could see myself picking it up.",
    "Yeah, I\x27d probably buy this. It looks good and fits what I\x27m looking for. I can see myself pulling the trigger on this pretty soon.",
    "I\x27m buying this for sure. Take my money right now. This is exactly what I\x27ve been looking for and I don\x27t need any more convincing."],
    Option.none,
    Option.none⟩),
  ("nps", ⟨[],
    Option.none,
    (some ["I would never recommend this. Terrible experience. Score: 0 out of 10.",
    "I would strongly advise against this. Very poor experience. Score: 1 out of 10.",
    "I am very unlikely to recommend this. Poor experience. Score: 2 out of 10.",
    "I would probably not recommend this. Below average experience. Score: 3 out of 10.",
    "I would hesitate to recommend this. Mediocre experience. Score: 4 out of 10.",
    "I am neutral about recommending this. Average experience. Score: 5 out of 10.",
    "I might recommend this in some cases. Slightly above average. Score: 6 out of 10.",
    "I would likely recommend this. Good experience overall. Score: 7 out of 10.",
    "I would recommend this. Very good experience. Score: 8 out of 10.",
    "I would strongly recommend this. Excellent experience. Score: 9 out of 10.",
    "I would enthusiastically recommend this to everyone. Outstanding. Score: 10 out of 10."])⟩),
]

def LABEL_TO_SEMANTIC : List (String × String) := [
  ("very dissatisfied", "satisfaction"),
  ("very satisfied", "satisfaction"),
  ("extremely dissatisfied", "satisfaction"),
  ("extremely satisfied", "satisfaction"),
  ("strongly disagree", "agreement"),
  ("strongly agree", "agreement"),
  ("very unlikely", "likelihood"),
  ("very likely", "likelihood"),
  ("extremely unlikely", "likelihood"),
  ("extremely likely", "likelihood"),
  ("not at all likely", "likelihood"),
  ("very difficult", "ease"),
  ("very easy", "ease"),
  ("not important", "importance"),
  ("not important at all", "importance"),
  ("very important", "importance"),
  ("extremely important", "importance"),
  ("not at all familiar", "familiarity"),
  ("extremely familiar", "familiarity"),
  ("not at all appealing", "appeal"),
  ("extremely appealing", "appeal"),
  ("not appealing", "appeal"),
  ("very appealing", "appeal"),
  ("very poor value", "value"),
  ("excellent value", "value"),
  ("not at all", "trust"),
  ("completely", "trust"),
  ("very poor", "quality"),
  ("excellent", "quality"),
  ("very negative", "impression"),
  ("very positive", "impression"),
  ("definitely would not", "purchase_intent"),
  ("definitely would", "purchase_intent"),
  ("not at all unique", "uniqueness"),
  ("extremely unique", "uniqueness"),
  ("not at all relevant", "relevance"),
  ("extremely relevant", "relevance"),
]


/-- JavaScript object lookup `TEMPLATES[semantic]`. -/
def lookupTemplate (semantic : String) : Option AnchorTemplate :=
  (TEMPLATES.find? (fun p => p.1 == semantic)).map Prod.snd

/-- JavaScript object lookup `LABEL_TO_SEMANTIC[label]`. -/
def lookupLabel (label : String) : Option String :=
  (LABEL_TO_SEMANTIC.find? (fun p => p.1 == label)).map Prod.snd

/-- The regex replacement `label.replace(/^(very |extremely )/, "")`
(alternation tried left to right, anchored at the start, applied once). -/
def stripIntensifier (s : String) : String :=
  if s.startsWith "very " then s.drop 5
  else if s.startsWith "extremely " then s.drop 10
  else s

/-- `detectSemanticFromLabels(low, high)`: exact lookups of the normalized
labels, then a first-match substring scan over the table entries. -/
def detectSemanticFromLabels (low high : String) : Option String :=
  let lowNorm := low.toLower.trim
  let highNorm := high.toLower.trim
  match lookupLabel lowNorm with
  | some s => some s
  | Option.none =>
    match lookupLabel highNorm with
    | some s => some s
    | Option.none =>
      (LABEL_TO_SEMANTIC.find? (fun p =>
        lowNorm.containsSubstr p.1 || highNorm.containsSubstr p.1)).map
        Prod.snd

/-- `inferSemanticFromText(text)`: ordered keyword rules, first match wins. -/
def inferSemanticFromText (text : String) : Option String :=
  let lower := text.toLower
  if lower.containsSubstr "satisfi" then some "satisfaction"
  else if lower.containsSubstr "agree" || lower.containsSubstr "disagree" then
    some "agreement"
  else if lower.containsSubstr "likely" || lower.containsSubstr "likelihood"
      || lower.containsSubstr "probability" then some "likelihood"
  else if lower.containsSubstr "easy" || lower.containsSubstr "difficult"
      || lower.containsSubstr "ease" then some "ease"
  else if lower.containsSubstr "important" ||
      lower.containsSubstr "importance" then some "importance"
  else if lower.containsSubstr "familiar" then some "familiarity"
  else if lower.containsSubstr "appeal" then some "appeal"
  else if lower.containsSubstr "value" && lower.containsSubstr "money" then
    some "value"
  else if lower.containsSubstr "trust" then some "trust"
  else if lower.containsSubstr "quality" then some "quality"
  else if lower.containsSubstr "unique" || lower.containsSubstr "different"
    then some "uniqueness"
  else if lower.containsSubstr "relevant" || lower.containsSubstr "relevance"
    then some "relevance"
  else if lower.containsSubstr "impression" || lower.containsSubstr "overall"
    then some "impression"
  else if lower.containsSubstr "purchase" || lower.containsSubstr "buy" then
    some "purchase_intent"
  else if lower.containsSubstr "recommend" then some "nps"
  else if lower.containsSubstr "often" || lower.containsSubstr "frequently"
      || lower.containsSubstr "how often" then some "frequency"
  else Option.none

/-- `interpolateFromTemplate(source5, targetSize)`: nearest-index projection
of a 5-point template onto `targetSize` points.  `Math.round` is round half
up, i.e. Mathlib `round`; the index arithmetic is exact in `ℚ` (the JS float
computation agrees for all realistic sizes). -/
def interpolateFromTemplate (source5 : List String) (targetSize : Int) :
    List String :=
  if targetSize = 5 then source5
  else if targetSize ≤ 1 then [source5.getD 2 ""]
  else
    (List.range targetSize.toNat).map (fun (i : ℕ) =>
      let ratio : ℚ := (i : ℚ) / ((targetSize : ℚ) - 1)
      let srcIdx := ratio * 4
      let nearestIdx := round srcIdx
      source5.getD nearestIdx.toNat "")

/-- `interpolateAnchors(low, high, size)`: synthesize anchors by blending the
custom pole labels across five intensity buckets of the normalized position
`i/(size-1)`.  (The `intensities` array in the source is dead code.) -/
def interpolateAnchors (low high : String) (size : Int) : List String :=
  if size ≤ 1 then [low ++ ". " ++ high ++ "."]
  else if size = 2 then [low ++ ".", high ++ "."]
  else
    (List.range size.toNat).map (fun (i : ℕ) =>
      let ratio : ℚ := (i : ℚ) / ((size : ℚ) - 1)
      if ratio < 1/5 then
        low ++ ". I feel very " ++ stripIntensifier low.toLower ++ "."
      else if ratio < 2/5 then
        "Leaning toward " ++ low.toLower ++ ". I somewhat feel this way."
      else if ratio < 3/5 then
        "Neither " ++ low.toLower ++ " nor " ++ high.toLower ++
          ". I feel neutral."
      else if ratio < 4/5 then
        "Leaning toward " ++ high.toLower ++ ". I somewhat feel this way."
      else
        high ++ ". I feel very " ++ stripIntensifier high.toLower ++ ".")

/-- `getAnchorsForSize(semantic, size)`. -/
def getAnchorsForSize (semantic : String) (size : Int) :
    Option (List String) :=
  match lookupTemplate semantic with
  | Option.none => Option.none
  | some template =>
    if size = 11 ∧ template.anchors11.isSome then template.anchors11
    else if size = 7 ∧ template.anchors7.isSome then template.anchors7
    else if size = 5 ∧ template.anchors5.length = 5 then some template.anchors5
    else if template.anchors5.length = 5 ∧ 0 < size then
      some (interpolateFromTemplate template.anchors5 size)
    else Option.none

/-- The effective scale minimum `question.scaleMin ?? (nps ? 0 : 1)`. -/
def effMin (question : SurveyQuestion) : Int :=
  question.scaleMin.getD (if question.type = QType.nps then 0 else 1)

/-- The effective scale maximum `question.scaleMax ?? (nps ? 10 : 5)`. -/
def effMax (question : SurveyQuestion) : Int :=
  question.scaleMax.getD (if question.type = QType.nps then 10 else 5)

/-- `resolveAnchors(question)`: tiered resolution — NPS override, label-based
match, custom-label interpolation, question-text inference, agreement
default.  `TEMPLATES.nps.anchors11!` is modelled with `Option.getD []` (the
entry is present in the catalog). -/
def resolveAnchors (question : SurveyQuestion) : ScaleAnchorSet :=
  let scaleMin := effMin question
  let scaleMax := effMax question
  let scaleSize := scaleMax - scaleMin + 1
  if question.type = QType.nps then
    { semantic := "nps",
      anchors := ((lookupTemplate "nps").bind AnchorTemplate.anchors11).getD
        [],
      scaleMin := 0, scaleMax := 10 }
  else
    match question.scaleAnchors with
    | some labels =>
      let tier2 : Option ScaleAnchorSet :=
        match detectSemanticFromLabels labels.low labels.high with
        | some semantic =>
          if (lookupTemplate semantic).isSome then
            match getAnchorsForSize semantic scaleSize with
            | some anchors =>
                some { semantic, anchors, scaleMin, scaleMax }
            | Option.none => Option.none
          else Option.none
        | Option.none => Option.none
      match tier2 with
      | some res => res
      | Option.none =>
        { semantic := "custom",
          anchors := interpolateAnchors labels.low labels.high scaleSize,
          scaleMin, scaleMax }
    | Option.none =>
      let tier1 : Option ScaleAnchorSet :=
        match inferSemanticFromText question.text with
        | some inferred =>
          if (lookupTemplate inferred).isSome then
            match getAnchorsForSize inferred scaleSize with
            | some anchors =>
                some { semantic := inferred, anchors, scaleMin, scaleMax }
            | Option.none => Option.none
          else Option.none
        | Option.none => Option.none
      match tier1 with
      | some res => res
      | Option.none =>
        { semantic := "agreement",
          anchors := (getAnchorsForSize "agreement" scaleSize).getD
            (((TEMPLATES.find? (fun p => p.1 == "agreement")).map
              (fun p => p.2.anchors5)).getD []),
          scaleMin, scaleMax }

/-! ### C3: anchor-count correctness of the resolver -/

/-- Catalog well-formedness: every 7-point variant has 7 anchors and every
11-point variant has 11. -/
theorem templates_wf : ∀ p ∈ TEMPLATES,
    (∀ l, p.2.anchors7 = some l → l.length = 7) ∧
    (∀ l, p.2.anchors11 = some l → l.length = 11) := by
  intro p hp
  fin_cases hp <;>
    refine ⟨fun l hl => ?_, fun l hl => ?_⟩ <;>
    cases hl <;> rfl

theorem interpolateFromTemplate_length (source5 : List String)
    (size : Int) (h5 : source5.length = 5) (h2 : 2 ≤ size) :
    (interpolateFromTemplate source5 size).length = size.toNat := by
  unfold interpolateFromTemplate
  split_ifs with ha hb
  · rw [h5, ha]
    rfl
  · omega
  · rw [List.length_map, List.length_range]

theorem interpolateAnchors_length (low high : String) (size : Int)
    (h2 : 2 ≤ size) :
    (interpolateAnchors low high size).length = size.toNat := by
  unfold interpolateAnchors
  split_ifs with ha hb
  · omega
  · rw [hb]
    rfl
  · rw [List.length_map, List.length_range]

theorem getAnchorsForSize_length (semantic : String) (size : Int)
    (l : List String) (h2 : 2 ≤ size)
    (h : getAnchorsForSize semantic size = some l) :
    l.length = size.toNat := by
  unfold getAnchorsForSize at h
  cases heq : lookupTemplate semantic with
  | none => rw [heq] at h; cases h
  | some tmpl =>
      rw [heq] at h
      dsimp only at h
      have hmem : ∃ p ∈ TEMPLATES, p.2 = tmpl := by
        unfold lookupTemplate at heq
        cases hfind : TEMPLATES.find? (fun p => p.1 == semantic) with
        | none => rw [hfind] at heq; cases heq
        | some p =>
            rw [hfind] at heq
            exact ⟨p, List.mem_of_find?_eq_some hfind, by
              simpa using heq⟩
      obtain ⟨p, hpmem, hp2⟩ := hmem
      have hwf := templates_wf p hpmem
      rw [hp2] at hwf
      split_ifs at h with h11 h7 h5 hint
      · rw [hwf.2 l h, h11.1]
        rfl
      · rw [hwf.1 l h, h7.1]
        rfl
      · have hl : l = tmpl.anchors5 := (Option.some.inj h).symm
        rw [hl, h5.2, h5.1]
        rfl
      · have hl : l = interpolateFromTemplate tmpl.anchors5 size :=
          (Option.some.inj h).symm
        rw [hl]
        exact interpolateFromTemplate_length _ _ hint.1 h2

theorem getAnchorsForSize_agreement_isSome (size : Int) (h2 : 2 ≤ size) :
    (getAnchorsForSize "agreement" size).isSome := by
  unfold getAnchorsForSize
  have hlk : lookupTemplate "agreement" =
      some ((TEMPLATES.get ⟨0, by decide⟩).2) := by rfl
  rw [hlk]
  dsimp only
  have h5 : ((TEMPLATES.get ⟨0, by decide⟩).2).anchors5.length = 5 := by rfl
  split_ifs with h11 h7 hfive hint
  · exact h11.2
  · exact h7.2
  · simp
  · simp
  · exfalso
    apply hint
    exact ⟨h5, by omega⟩

/-- Validity of a scale definition: the effective bounds satisfy
`min < max`, and the fixed 0–10 recommendation (`nps`) kind carries its
canonical bounds. -/
def validQuestion (q : SurveyQuestion) : Prop :=
  effMin q < effMax q ∧
    (q.type = QType.nps → effMin q = 0 ∧ effMax q = 10)

instance (q : SurveyQuestion) : Decidable (validQuestion q) := by
  unfold validQuestion
  infer_instance

/-- C3: for every valid scale definition, `resolveAnchors` returns (it is a
total function — no failure path) an anchor set whose anchor list has exactly
`max - min + 1` entries. -/
theorem c3_resolve_anchor_count (q : SurveyQuestion)
    (hv : validQuestion q) :
    (resolveAnchors q).anchors.length = (effMax q - effMin q + 1).toNat := by
  obtain ⟨hlt, hnps⟩ := hv
  unfold resolveAnchors
  by_cases ht : q.type = QType.nps
  · rw [if_pos ht]
    obtain ⟨h0, h10⟩ := hnps ht
    rw [h0, h10]
    decide
  · rw [if_neg ht]
    have hsz : 2 ≤ effMax q - effMin q + 1 := by omega
    cases hqa : q.scaleAnchors with
    | some labels =>
        dsimp only
        cases hdet : detectSemanticFromLabels labels.low labels.high with
        | some semantic =>
            dsimp only
            by_cases hl : (lookupTemplate semantic).isSome
            · rw [if_pos hl]
              cases hga : getAnchorsForSize semantic
                  (effMax q - effMin q + 1) with
              | some anchors =>
                  dsimp only
                  exact getAnchorsForSize_length _ _ _ hsz hga
              | none =>
                  dsimp only
                  exact interpolateAnchors_length _ _ _ hsz
            · rw [if_neg hl]
              dsimp only
              exact interpolateAnchors_length _ _ _ hsz
        | none =>
            dsimp only
            exact interpolateAnchors_length _ _ _ hsz
    | none =>
        dsimp only
        cases hinf : inferSemanticFromText q.text with
        | some inferred =>
            dsimp only
            by_cases hl : (lookupTemplate inferred).isSome
            · rw [if_pos hl]
              cases hga : getAnchorsForSize inferred
                  (effMax q - effMin q + 1) with
              | some anchors =>
                  dsimp only
                  exact getAnchorsForSize_length _ _ _ hsz hga
              | none =>
                  dsimp only
                  obtain ⟨l, hlk⟩ := Option.isSome_iff_exists.mp
                    (getAnchorsForSize_agreement_isSome _ hsz)
                  rw [hlk]
                  simp only [Option.getD_some]
                  exact getAnchorsForSize_length _ _ _ hsz hlk
            · rw [if_neg hl]
              dsimp only
              obtain ⟨l, hlk⟩ := Option.isSome_iff_exists.mp
                (getAnchorsForSize_agreement_isSome _ hsz)
              rw [hlk]
              simp only [Option.getD_some]
              exact getAnchorsForSize_length _ _ _ hsz hlk
        | none =>
            dsimp only
            obtain ⟨l, hlk⟩ := Option.isSome_iff_exists.mp
              (getAnchorsForSize_agreement_isSome _ hsz)
            rw [hlk]
            simp only [Option.getD_some]
            exact getAnchorsForSize_length _ _ _ hsz hlk

/-- C3 witness: a 1–5 satisfaction Likert question. -/
theorem c3_witness :
    validQuestion
      { id := "sat", type := QType.likert,
        text := "How satisfied are you with the checkout experience?",
        scaleMin := some 1, scaleMax := some 5,
        scaleAnchors :=
          some ⟨"Very dissatisfied", "Very satisfied"⟩ } ∧
    (resolveAnchors
      { id := "sat", type := QType.likert,
        text := "How satisfied are you with the checkout experience?",
        scaleMin := some 1, scaleMax := some 5,
        scaleAnchors :=
          some ⟨"Very dissatisfied", "Very satisfied"⟩ }).anchors.length =
      (effMax
        { id := "sat", type := QType.likert,
          text := "How satisfied are you with the checkout experience?",
          scaleMin := some 1, scaleMax := some 5,
          scaleAnchors :=
            some ⟨"Very dissatisfied", "Very satisfied"⟩ } -
       effMin
        { id := "sat", type := QType.likert,
          text := "How satisfied are you with the checkout experience?",
          scaleMin := some 1, scaleMax := some 5,
          scaleAnchors :=
            some ⟨"Very dissatisfied", "Very satisfied"⟩ } + 1).toNat :=
  ⟨by decide, c3_resolve_anchor_count _ (by decide)⟩


/-! ### Calibration cross-validation (`src/unnamed/part_001`)

Embeddings of the calibration script: the candidate-temperature grid, the
`evaluate` / `findBestTemp` train-set selection, leave-one-domain-out CV
(`runLODO`), the seeded Mulberry32 PRNG, the Fisher–Yates `shuffle`, and the
70/30 bootstrap (`runBootstrap`).  An `EmbeddedTestCase` stores, as in the
script, the pre-computed raw similarities in its `anchorVecs` field.
Reals replace JS doubles; `mae` of an empty case list is `0/0 = 0` here
where JS produces `NaN` (the selection comparisons `>` and `<` are false in
both models, so `findBestTemp` behaves identically). -/

structure EmbeddedTestCase where
  label : String
  domain : String
  expected : ℤ
  anchorVecs : List ℝ
  scaleMin : ℤ
  scaleMax : ℤ

instance : Inhabited EmbeddedTestCase := ⟨⟨"", "", 0, [], 0, 0⟩⟩

def NORMALIZATION : SimilarityNormalization := SimilarityNormalization.minmax

def CANDIDATE_TEMPS : List ℝ := [0.05, 0.1, 0.15, 0.2, 0.25, 0.3, 0.4, 0.5]

def BOOTSTRAP_REPEATS : ℕ := 100

def SEED : ℕ := 42

structure EvalResult where
  exact : ℕ
  withinOne : ℕ
  mae : ℝ
  total : ℕ
  exactPct : ℤ
  withinOnePct : ℤ

/-- Absolute rating error of one test case at a given temperature:
distribution → expected-value rating → clamp to the scale → `|· - expected|`
(the loop body of `evaluate`). -/
noncomputable def caseErr (tc : EmbeddedTestCase) (temperature : ℝ) : ℤ :=
  let dist := similaritiesToDistribution tc.anchorVecs temperature NORMALIZATION
  let rating := distributionToRating dist tc.scaleMin
  let clamped := min (max rating tc.scaleMin) tc.scaleMax
  |clamped - tc.expected|

noncomputable def evaluate (cases : List EmbeddedTestCase)
    (temperature : ℝ) : EvalResult :=
  let errs := cases.map (fun tc => caseErr tc temperature)
  { exact := (errs.filter (fun e => e == 0)).length
    withinOne := (errs.filter (fun e => decide (e ≤ 1))).length
    mae := ((errs.sum : ℤ) : ℝ) / (cases.length : ℝ)
    total := cases.length
    exactPct :=
      round ((((errs.filter (fun e => e == 0)).length : ℝ) /
        (cases.length : ℝ)) * 100)
    withinOnePct :=
      round ((((errs.filter (fun e => decide (e ≤ 1))).length : ℝ) /
        (cases.length : ℝ)) * 100) }

/-- One iteration of the `findBestTemp` loop: replace the incumbent iff the
new temperature has strictly more exact matches, or equally many and a
strictly smaller MAE. -/
noncomputable def findBestTempFold (trainCases : List EmbeddedTestCase)
    (best : ℝ × EvalResult) (temp : ℝ) : ℝ × EvalResult :=
  let result := evaluate trainCases temp
  if result.exact > best.2.exact ∨
      (result.exact = best.2.exact ∧ result.mae < best.2.mae) then
    (temp, result)
  else best

/-- `findBestTemp` generalized over the candidate list (the script fixes it
to `CANDIDATE_TEMPS`): seed with the first candidate, fold over the rest. -/
noncomputable def findBestTempWith (temps : List ℝ)
    (trainCases : List EmbeddedTestCase) : ℝ × EvalResult :=
  (temps.drop 1).foldl (findBestTempFold trainCases)
    (temps.headI, evaluate trainCases temps.headI)

noncomputable def findBestTemp (trainCases : List EmbeddedTestCase) :
    ℝ × EvalResult :=
  findBestTempWith CANDIDATE_TEMPS trainCases

/-- Domain column of `TEST_CASES` in `ground-truth-v2.ts` (69 cases). -/
def TEST_CASE_DOMAINS : List String :=
  List.replicate 10 "satisfaction" ++ List.replicate 8 "likelihood" ++
  List.replicate 8 "agreement" ++ List.replicate 9 "ease" ++
  List.replicate 9 "importance" ++ List.replicate 9 "trust" ++
  List.replicate 8 "value" ++ List.replicate 8 "purchase_intent"

/-- First-occurrence deduplication, the order `[...new Set(xs)]` yields. -/
def dedupFirstAux : List String → List String → List String
  | _, [] => []
  | seen, x :: xs =>
      if x ∈ seen then dedupFirstAux seen xs
      else x :: dedupFirstAux (x :: seen) xs

def getDomains : List String := dedupFirstAux [] TEST_CASE_DOMAINS

structure LODOResult where
  heldOutDomain : String
  calibratedTemp : ℝ
  trainResult : EvalResult
  testResult : EvalResult

/-- Leave-one-domain-out CV: one fold per domain of the global ground-truth
set (`getDomains`), regardless of which domains `embedded` itself spans. -/
noncomputable def runLODO (embedded : List EmbeddedTestCase) :
    List LODOResult :=
  getDomains.map (fun holdout =>
    let trainCases := embedded.filter (fun tc => tc.domain != holdout)
    let testCases := embedded.filter (fun tc => tc.domain == holdout)
    let best := findBestTemp trainCases
    { heldOutDomain := holdout
      calibratedTemp := best.1
      trainResult := best.2
      testResult := evaluate testCases best.1 })

/-! ### Seeded PRNG and bootstrap

`mulberry32` keeps a float seed that grows by `0x6d2b79f5` per call; the
draws reduce it mod `2^32` bit by bit.  The seed is modelled as an exact
natural number (exact as long as it stays below `2^53`, which holds for the
script: 100 draws from seed 42).  Each 32-bit step matches the JS bit
operations: `>>>`/`|`/`^`/`Math.imul` all act on the value mod `2^32`, and
the draw is the final word divided by `2^32`, an exact rational. -/

def mulberry32Step (seed : ℕ) : ℕ × ℚ :=
  let s := seed + 0x6d2b79f5
  let t0 := s % 2 ^ 32
  let t1 := (t0 ^^^ (t0 >>> 15)) * (t0 ||| 1) % 2 ^ 32
  let t2 := t1 ^^^ ((t1 + (t1 ^^^ (t1 >>> 7)) * (t1 ||| 61) % 2 ^ 32) % 2 ^ 32)
  (s, ((t2 ^^^ (t2 >>> 14)) : ℚ) / 4294967296)

/-- Swap positions `i` and `j` (the destructuring assignment in `shuffle`). -/
def listSwap (l : List EmbeddedTestCase) (i j : ℕ) : List EmbeddedTestCase :=
  let xi := l.getD i default
  let xj := l.getD j default
  (l.set i xj).set j xi

/-- Fisher–Yates loop, index `i` running down from `n - 1` to `1`; the
fuel argument is the current index.  `j = ⌊rng() * (i + 1)⌋`. -/
def shuffleAux : ℕ → List EmbeddedTestCase × ℕ → List EmbeddedTestCase × ℕ
  | 0, st => st
  | i + 1, (l, seed) =>
      let step := mulberry32Step seed
      let j := (⌊step.2 * ((i : ℚ) + 2)⌋).toNat
      shuffleAux i (listSwap l (i + 1) j, step.1)

/-- `shuffle(arr, rng)`: returns the shuffled copy and the advanced seed. -/
def shuffle (arr : List EmbeddedTestCase) (seed : ℕ) :
    List EmbeddedTestCase × ℕ :=
  shuffleAux (arr.length - 1) (arr, seed)

structure BootstrapResult where
  exactPcts : List ℤ
  withinOnePcts : List ℤ
  maes : List ℝ
  temps : List ℝ

/-- One bootstrap repeat: shuffle, 70/30 split (`Math.floor(len * 0.7)`,
modelled as the exact `len * 7 / 10`), calibrate on the train split,
evaluate on the test split, append the four metrics. -/
noncomputable def bootstrapIter (embedded : List EmbeddedTestCase)
    (st : ℕ × BootstrapResult) : ℕ × BootstrapResult :=
  let sh := shuffle embedded st.1
  let splitIdx := sh.1.length * 7 / 10
  let train := sh.1.take splitIdx
  let test := sh.1.drop splitIdx
  let best := findBestTemp train
  let testResult := evaluate test best.1
  (sh.2,
   { exactPcts := st.2.exactPcts ++ [testResult.exactPct]
     withinOnePcts := st.2.withinOnePcts ++ [testResult.withinOnePct]
     maes := st.2.maes ++ [testResult.mae]
     temps := st.2.temps ++ [best.1] })

noncomputable def runBootstrap (seed : ℕ)
    (embedded : List EmbeddedTestCase) : BootstrapResult :=
  ((List.range BOOTSTRAP_REPEATS).foldl
    (fun st _ => bootstrapIter embedded st)
    (seed, ⟨[], [], [], []⟩)).2

/-- The per-repeat shuffles (fold assignments) of a bootstrap run: the rng
is advanced only by `shuffle`, so this lists exactly the shuffled order each
repeat works on. -/
def bootstrapShuffles (seed : ℕ) (embedded : List EmbeddedTestCase) :
    List (List EmbeddedTestCase) :=
  ((List.range BOOTSTRAP_REPEATS).foldl
    (fun st _ =>
      let sh := shuffle embedded st.1
      (sh.2, st.2 ++ [sh.1]))
    (seed, ([] : List (List EmbeddedTestCase)))).2

/-- The reported 95% confidence intervals: each metric list sorted
ascending, endpoints at indices `⌊R * 0.025⌋ = 2` and `⌊R * 0.975⌋ = 97`. -/
noncomputable def bootstrapIntervals (res : BootstrapResult) :
    (ℤ × ℤ) × (ℤ × ℤ) × (ℝ × ℝ) × (ℝ × ℝ) :=
  let lo := BOOTSTRAP_REPEATS * 25 / 1000
  let hi := BOOTSTRAP_REPEATS * 975 / 1000
  let sortedExact := res.exactPcts.mergeSort (fun a b => decide (a ≤ b))
  let sortedW1 := res.withinOnePcts.mergeSort (fun a b => decide (a ≤ b))
  let sortedMAE := res.maes.mergeSort (fun a b => decide (a ≤ b))
  let sortedTemps := res.temps.mergeSort (fun a b => decide (a ≤ b))
  ((sortedExact.getD lo 0, sortedExact.getD hi 0),
   (sortedW1.getD lo 0, sortedW1.getD hi 0),
   (sortedMAE.getD lo 0, sortedMAE.getD hi 0),
   (sortedTemps.getD lo 0, sortedTemps.getD hi 0))

/-! ### C5: lexicographic temperature selection -/

/-- `b` is at least as good as candidate `t` on `cases` in the lexicographic
(exact-match count, then MAE) order. -/
noncomputable def tempDominated (cases : List EmbeddedTestCase)
    (b : ℝ × EvalResult) (t : ℝ) : Prop :=
  (evaluate cases t).exact ≤ b.2.exact ∧
    ((evaluate cases t).exact = b.2.exact → b.2.mae ≤ (evaluate cases t).mae)

theorem findBestTempFold_preserves (cases : List EmbeddedTestCase)
    (b : ℝ × EvalResult) (t u : ℝ) (h : tempDominated cases b u) :
    tempDominated cases (findBestTempFold cases b t) u := by
  unfold findBestTempFold
  unfold tempDominated at h ⊢
  obtain ⟨h1, h2⟩ := h
  dsimp only
  split_ifs with hc
  · dsimp only
    rcases hc with hgt | ⟨heq, hlt⟩
    · refine ⟨by omega, fun he => ?_⟩
      exact absurd hgt (by omega)
    · refine ⟨by omega, fun he => ?_⟩
      have h3 := h2 (by omega)
      linarith
  · exact ⟨h1, h2⟩

theorem findBestTempFold_self (cases : List EmbeddedTestCase)
    (b : ℝ × EvalResult) (t : ℝ) :
    tempDominated cases (findBestTempFold cases b t) t := by
  unfold findBestTempFold tempDominated
  dsimp only
  split_ifs with hc
  · exact ⟨le_refl _, fun _ => le_refl _⟩
  · push_neg at hc
    exact ⟨hc.1, hc.2⟩

theorem findBestTempFold_snd (cases : List EmbeddedTestCase)
    (b : ℝ × EvalResult) (t : ℝ) (hb : b.2 = evaluate cases b.1) :
    (findBestTempFold cases b t).2 =
      evaluate cases (findBestTempFold cases b t).1 := by
  unfold findBestTempFold
  dsimp only
  split_ifs with hc
  · rfl
  · exact hb

theorem findBestTempFold_fst (cases : List EmbeddedTestCase)
    (b : ℝ × EvalResult) (t : ℝ) :
    (findBestTempFold cases b t).1 = t ∨
      (findBestTempFold cases b t).1 = b.1 := by
  unfold findBestTempFold
  dsimp only
  split_ifs with hc
  · exact Or.inl rfl
  · exact Or.inr rfl

theorem foldl_preserves_dominated (cases : List EmbeddedTestCase)
    (l : List ℝ) (b : ℝ × EvalResult) (u : ℝ)
    (h : tempDominated cases b u) :
    tempDominated cases (l.foldl (findBestTempFold cases) b) u := by
  induction l generalizing b with
  | nil => exact h
  | cons t rest ih =>
      rw [List.foldl_cons]
      exact ih _ (findBestTempFold_preserves cases b t u h)

theorem foldl_best_snd (cases : List EmbeddedTestCase) (l : List ℝ)
    (b : ℝ × EvalResult) (hb : b.2 = evaluate cases b.1) :
    (l.foldl (findBestTempFold cases) b).2 =
      evaluate cases (l.foldl (findBestTempFold cases) b).1 := by
  induction l generalizing b with
  | nil => exact hb
  | cons t rest ih =>
      rw [List.foldl_cons]
      exact ih _ (findBestTempFold_snd cases b t hb)

theorem foldl_best_mem (cases : List EmbeddedTestCase) (l : List ℝ)
    (b : ℝ × EvalResult) :
    (l.foldl (findBestTempFold cases) b).1 = b.1 ∨
      (l.foldl (findBestTempFold cases) b).1 ∈ l := by
  induction l generalizing b with
  | nil => exact Or.inl rfl
  | cons t rest ih =>
      rw [List.foldl_cons]
      rcases ih (findBestTempFold cases b t) with h | h
      · rcases findBestTempFold_fst cases b t with h2 | h2
        · refine Or.inr ?_
          rw [h, h2]
          exact List.mem_cons_self t rest
        · rw [h2] at h
          exact Or.inl h
      · exact Or.inr (List.mem_cons_of_mem t h)

theorem foldl_best_dominates (cases : List EmbeddedTestCase) (l : List ℝ)
    (b : ℝ × EvalResult) :
    ∀ t ∈ l, tempDominated cases (l.foldl (findBestTempFold cases) b) t := by
  induction l generalizing b with
  | nil => intro t ht; cases ht
  | cons t rest ih =>
      intro u hu
      rw [List.foldl_cons]
      rcases List.mem_cons.mp hu with rfl | hu
      · exact foldl_preserves_dominated cases rest _ u
          (findBestTempFold_self cases b u)
      · exact ih _ u hu

/-- C5: for every training set and every non-empty candidate-temperature
list, the selected temperature is a candidate, the returned result is its
evaluation, and the selection is lexicographically optimal: every candidate
has at most as many exact matches, and every candidate tying on exact
matches has at least as large an MAE. -/
theorem c5_lexicographic_selection (trainCases : List EmbeddedTestCase)
    (temps : List ℝ) (hne : temps ≠ []) :
    (findBestTempWith temps trainCases).1 ∈ temps ∧
    (findBestTempWith temps trainCases).2 =
      evaluate trainCases (findBestTempWith temps trainCases).1 ∧
    ∀ t ∈ temps,
      (evaluate trainCases t).exact ≤
          (findBestTempWith temps trainCases).2.exact ∧
        ((evaluate trainCases t).exact =
            (findBestTempWith temps trainCases).2.exact →
          (findBestTempWith temps trainCases).2.mae ≤
            (evaluate trainCases t).mae) := by
  obtain ⟨hd, tl, rfl⟩ := List.exists_cons_of_ne_nil hne
  unfold findBestTempWith
  simp only [List.headI, List.drop_succ_cons, List.drop_zero]
  refine ⟨?_, foldl_best_snd trainCases tl (hd, evaluate trainCases hd) rfl, ?_⟩
  · rcases foldl_best_mem trainCases tl (hd, evaluate trainCases hd) with h | h
    · rw [h]
      exact List.mem_cons_self hd tl
    · exact List.mem_cons_of_mem hd h
  · intro t ht
    rcases List.mem_cons.mp ht with rfl | ht
    · exact foldl_preserves_dominated trainCases tl _ t
        ⟨le_refl _, fun _ => le_refl _⟩
    · exact foldl_best_dominates trainCases tl _ t ht

/-- C5 witness: singleton candidate list `[1]` on the empty training set. -/
theorem c5_witness :
    (([(1 : ℝ)] : List ℝ) ≠ []) ∧
    ((findBestTempWith [(1 : ℝ)] []).1 ∈ ([(1 : ℝ)] : List ℝ) ∧
     (findBestTempWith [(1 : ℝ)] []).2 =
       evaluate [] (findBestTempWith [(1 : ℝ)] []).1 ∧
     ∀ t ∈ ([(1 : ℝ)] : List ℝ),
       (evaluate [] t).exact ≤ (findBestTempWith [(1 : ℝ)] []).2.exact ∧
         ((evaluate [] t).exact = (findBestTempWith [(1 : ℝ)] []).2.exact →
           (findBestTempWith [(1 : ℝ)] []).2.mae ≤ (evaluate [] t).mae)) :=
  ⟨by simp, c5_lexicographic_selection [] [(1 : ℝ)] (by simp)⟩

/-! ### C6: no InsufficientData error path in calibration -/

theorem findBestTempWith_fst_mem (temps : List ℝ)
    (cases : List EmbeddedTestCase) (hne : temps ≠ []) :
    (findBestTempWith temps cases).1 ∈ temps := by
  obtain ⟨hd, tl, rfl⟩ := List.exists_cons_of_ne_nil hne
  unfold findBestTempWith
  simp only [List.headI, List.drop_succ_cons, List.drop_zero]
  rcases foldl_best_mem cases tl (hd, evaluate cases hd) with h | h
  · rw [h]
    exact List.mem_cons_self hd tl
  · exact List.mem_cons_of_mem hd h

theorem evaluate_nil (t : ℝ) :
    evaluate [] t = ⟨0, 0, 0, 0, 0, 0⟩ := by
  unfold evaluate
  simp

theorem findBestTemp_nil :
    findBestTemp [] = ((0.05 : ℝ), evaluate [] (0.05 : ℝ)) := by
  have hstep : ∀ t : ℝ,
      findBestTempFold [] ((0.05 : ℝ), evaluate [] (0.05 : ℝ)) t =
        ((0.05 : ℝ), evaluate [] (0.05 : ℝ)) := by
    intro t
    unfold findBestTempFold
    dsimp only
    rw [if_neg]
    rw [evaluate_nil t, evaluate_nil (0.05 : ℝ)]
    dsimp only
    norm_num
  unfold findBestTemp findBestTempWith CANDIDATE_TEMPS
  simp only [List.headI, List.drop_succ_cons, List.drop_zero,
    List.foldl_cons, List.foldl_nil, hstep]

/-- C6 counterexample: the spec requires calibration on fewer than two
distinct domains (and on empty train splits) to fail with an
`InsufficientData` error, but `runLODO` has no error path at all.  On the
empty case list — zero domains, every train and test split empty — it
still returns 8 folds (one per global ground-truth domain), each reporting
the degenerate calibrated temperature 0.05, the first candidate. -/
theorem c6_counterexample :
    (runLODO []).length = 8 ∧
    (runLODO []).map (fun r => r.calibratedTemp) =
      List.replicate 8 (0.05 : ℝ) := by
  have hdom : getDomains = ["satisfaction", "likelihood", "agreement",
      "ease", "importance", "trust", "value", "purchase_intent"] := by
    decide
  unfold runLODO
  rw [hdom]
  simp only [List.filter_nil, findBestTemp_nil, List.map_cons, List.map_nil,
    List.length_cons, List.length_nil, List.replicate]
  norm_num

/-- C6 (amended): calibration never fails, whatever the labeled cases
span: `runLODO` is total, returns exactly one fold per domain of the global
ground-truth set, and every fold's calibrated temperature is one of the
candidate temperatures (on degenerate inputs the first candidate, rather
than an `InsufficientData` error). -/
theorem c6_amended_lodo_total (embedded : List EmbeddedTestCase) :
    (runLODO embedded).length = getDomains.length ∧
    ∀ r ∈ runLODO embedded, r.calibratedTemp ∈ CANDIDATE_TEMPS := by
  constructor
  · unfold runLODO
    exact List.length_map _ _
  · intro r hr
    unfold runLODO at hr
    rcases List.mem_map.mp hr with ⟨holdout, hmem, heq⟩
    subst heq
    dsimp only
    exact findBestTempWith_fst_mem CANDIDATE_TEMPS _ (by simp [CANDIDATE_TEMPS])

/-! ### C10: bootstrap reproducibility -/

/-- C10: two bootstrap calibration runs with the same seed and the same
input cases produce identical per-repeat shuffles (fold assignments) and
identical reported metric lists and 95% confidence intervals — the seeded
Mulberry32 generator is the only source of randomness and it is a pure
function of the seed. -/
theorem c10_bootstrap_reproducible (seed1 seed2 : ℕ)
    (cases1 cases2 : List EmbeddedTestCase)
    (hs : seed1 = seed2) (hc : cases1 = cases2) :
    bootstrapShuffles seed1 cases1 = bootstrapShuffles seed2 cases2 ∧
    runBootstrap seed1 cases1 = runBootstrap seed2 cases2 ∧
    bootstrapIntervals (runBootstrap seed1 cases1) =
      bootstrapIntervals (runBootstrap seed2 cases2) := by
  subst hs
  subst hc
  exact ⟨rfl, rfl, rfl⟩

/-- C10 witness: two runs at `SEED = 42` on the empty case list. -/
theorem c10_witness :
    (SEED = SEED) ∧ (([] : List EmbeddedTestCase) = []) ∧
    (bootstrapShuffles SEED [] = bootstrapShuffles SEED [] ∧
     runBootstrap SEED [] = runBootstrap SEED [] ∧
     bootstrapIntervals (runBootstrap SEED []) =
       bootstrapIntervals (runBootstrap SEED [])) :=
  ⟨rfl, rfl, c10_bootstrap_reproducible SEED SEED [] [] rfl rfl⟩

end SSR
